import Mathlib

/-!
# Verification of the F1 Monte-Carlo race-strategy simulator

Shallow embedding of `src/backend/src/F1_Simulation.py` (the race-outcome
engine: configuration/strategy validation, the per-lap player-car loop,
the competitor field, position computation and the results aggregator).

Conventions:
* Python floats are embedded as `ℚ` wherever the computation stays in the
  rationals; quantities built with `np.sqrt` / `np.exp` / `** 1.5` live in `ℝ`.
* `x ** 1.5` (used only on non-negative wear values) is embedded as
  `Real.sqrt (x ^ 3)`, which agrees with `x ^ (3/2)` on `x ≥ 0`.
* `numpy` random draws are modelled by an explicit stream of rational values:
  each call to the generator consumes the next stream element, and the
  distribution transforms (`uniform`, `normal`, `randint`) are applied to the
  raw stream value.  Exceptions raised by the Python code are modelled with
  `Except String`.
-/

namespace F1Sim

/-- `TireCompound` enumeration. -/
inductive TireCompound where
  | soft | medium | hard | intermediate | wet
  deriving DecidableEq, Repr, Fintype

/-- `EngineMode` enumeration; the enum's payload is its lap-time multiplier. -/
inductive EngineMode where
  | eco | normal | push | overtake
  deriving DecidableEq, Repr, Fintype

/-- `EngineMode.value`: ECO = 0.98, NORMAL = 1.0, PUSH = 1.02, OVERTAKE = 1.04. -/
def EngineMode.value : EngineMode → ℚ
  | .eco => 98/100
  | .normal => 1
  | .push => 102/100
  | .overtake => 104/100

/-- `CarEngineering`: the fields of the dataclass that are read by the methods
embedded below (`estimate_lap_time_delta`, `get_fuel_consumption_rate`,
`get_reliability_dnf_probability`) and by `CarSetup.__post_init__`.
Presentation-only fields (ride heights, gear ratios, brake material, ...) are
never read by the simulation core and are omitted. -/
structure CarEngineering where
  car_mass_kg : ℚ := 798
  driver_mass_kg : ℚ := 80
  downforce_coefficient : ℚ := 7/2
  drag_coefficient : ℚ := 17/20
  front_wing_angle : ℚ := 20
  rear_wing_angle : ℚ := 12
  max_power_kw : ℚ := 750
  front_spring_rate_n_per_mm : ℚ := 150
  fuel_flow_rate_kg_per_hour : ℚ := 100
  power_unit_mileage_km : ℚ := 1500
  power_unit_max_mileage_km : ℚ := 7000
  gearbox_mileage_km : ℚ := 800
  gearbox_max_mileage_km : ℚ := 2500
  reliability_factor : ℚ := 19/20
  overall_performance_offset_s : ℚ := 0
  deriving Repr

/-- `TrackConfig`: the fields read by the simulation core.  Identity and
presentation fields (name, length, DRS zones, direction, ...) are omitted. -/
structure TrackConfig where
  base_lap_time : ℚ
  num_corners : ℕ
  pit_loss_time : ℚ := 22
  tire_stress : ℚ := 1
  fuel_usage : ℚ := 1
  deriving Repr

/-- `CarEngineering.calculate_total_mass_kg`. -/
def CarEngineering.calculate_total_mass_kg (e : CarEngineering) (current_fuel_kg : ℚ) : ℚ :=
  e.car_mass_kg + e.driver_mass_kg + current_fuel_kg

/-- `CarEngineering.get_corner_speed_multiplier`. -/
def CarEngineering.get_corner_speed_multiplier (e : CarEngineering) : ℚ :=
  let downforce_advantage := e.downforce_coefficient / 3
  let mass_penalty := (798 + 80 + 55) / e.calculate_total_mass_kg 55
  let mechanical_grip := 1 + (5/100) * (e.front_spring_rate_n_per_mm / 150 - 1)
  downforce_advantage * (7/10) + mass_penalty * (2/10) + mechanical_grip * (1/10)

/-- `CarEngineering.get_straight_speed_multiplier`. -/
def CarEngineering.get_straight_speed_multiplier (e : CarEngineering) : ℚ :=
  let power_advantage := e.max_power_kw / 670
  let drag_advantage := (17/20) / e.drag_coefficient
  power_advantage * (6/10) + drag_advantage * (4/10)

/-- `CarEngineering.estimate_lap_time_delta`: per-lap pace offset of the car,
clipped (`np.clip`) to `[-0.8, 0.2]`. -/
def CarEngineering.estimate_lap_time_delta (e : CarEngineering) (track : TrackConfig) : ℚ :=
  let corner_multiplier := e.get_corner_speed_multiplier
  let corner_fraction := (track.num_corners : ℚ) / 20
  let corner_delta := (1 - corner_multiplier) * track.base_lap_time * corner_fraction * (6/10)
  let straight_multiplier := e.get_straight_speed_multiplier
  let straight_fraction := 1 - corner_fraction
  let straight_delta := (1 - straight_multiplier) * track.base_lap_time * straight_fraction * (4/10)
  let delta := e.overall_performance_offset_s + corner_delta + straight_delta
  min (max delta (-(8/10))) (2/10)

/-- `CarEngineering.get_fuel_consumption_rate`: per-lap fuel burn (kg). -/
def CarEngineering.get_fuel_consumption_rate (e : CarEngineering) (engine_mode : EngineMode)
    (track_fuel_factor : ℚ) : ℚ :=
  let base_consumption := (e.fuel_flow_rate_kg_per_hour / 60) * (15/10) / 60
  base_consumption * engine_mode.value * track_fuel_factor

/-- `CarEngineering.get_reliability_dnf_probability` (with the default
`base_dnf_prob = 0.03`): exponential in accumulated component mileage,
capped at 0.50.  Lives in `ℝ` because of `np.exp`. -/
noncomputable def CarEngineering.get_reliability_dnf_probability (e : CarEngineering)
    (race_laps : ℕ) : ℝ :=
  let pu_wear : ℚ := e.power_unit_mileage_km / e.power_unit_max_mileage_km
  let gearbox_wear : ℚ := e.gearbox_mileage_km / e.gearbox_max_mileage_km
  let pu_risk : ℝ := Real.exp (3 * (pu_wear : ℝ)) - 1
  let gearbox_risk : ℝ := Real.exp ((25/10) * (gearbox_wear : ℝ)) - 1
  let component_risk : ℝ := (pu_risk * (6/10) + gearbox_risk * (4/10)) / (e.reliability_factor : ℝ)
  let race_length_factor : ℚ := (race_laps : ℚ) / 60
  min ((3/100) * ((13/10) + component_risk) * (race_length_factor : ℝ)) (1/2)

/-- `CarSetup` dataclass (fields as declared, before `__post_init__`). -/
structure CarSetup where
  engineering : CarEngineering := {}
  downforce_level : ℚ := 1/2
  engine_mode : EngineMode := .normal
  fuel_start : ℚ := 110
  tire_compound : TireCompound := .medium
  initial_tire_wear : ℚ := 0
  deriving Repr

/-- `CarSetup.__post_init__`: derives the aero coefficients and wing angles of
the engineering model from `downforce_level`.  Every constructed `CarSetup`
has this applied. -/
def applyCarSetup (s : CarSetup) : CarSetup :=
  { s with engineering :=
    { s.engineering with
      downforce_coefficient := (7/2) * ((7/10) + (6/10) * s.downforce_level)
      drag_coefficient := (17/20) * ((7/10) + (5/10) * s.downforce_level)
      front_wing_angle := 15 + 10 * s.downforce_level
      rear_wing_angle := 8 + 8 * s.downforce_level } }

/-- `CarSetup.get_performance_offset`. -/
def CarSetup.get_performance_offset (s : CarSetup) (track : TrackConfig) : ℚ :=
  s.engineering.estimate_lap_time_delta track

/-- `RaceConditions` (weather and the unused VSC/red-flag probabilities are
carried for completeness; the core reads `race_laps`, `track`, `track_temp`,
`safety_car_prob`, `num_competitors`, `min_compounds_required`,
`refueling_allowed`). -/
structure RaceConditions where
  race_laps : ℕ
  track : TrackConfig
  track_temp : ℚ := 25
  safety_car_prob : ℚ := 15/1000
  vsc_prob : ℚ := 8/1000
  red_flag_prob : ℚ := 2/10000
  num_competitors : ℕ := 19
  field_spread : ℚ := 25/10
  min_compounds_required : ℕ := 2
  max_fuel_kg : ℚ := 110
  refueling_allowed : Bool := false
  deriving Repr

/-- `SimulationConfig`; `tire_properties` maps a compound to
`(speed offset s, base wear rate per lap, nominal operating window)`. -/
structure SimulationConfig where
  num_runs : ℕ := 10000
  random_seed : ℤ := 42
  k_wear_lap_time : ℚ := 12
  k_fuel_lap_time : ℚ := 3/100
  k_downforce_lap_time : ℚ := 12/10
  tireProperties : TireCompound → ℚ × ℚ × ℚ := fun c =>
    match c with
    | .soft => (-(8/10), 30/1000, 25)
    | .medium => (0, 15/1000, 20)
    | .hard => (6/10, 8/1000, 15)
    | .intermediate => (2, 20/1000, 10)
    | .wet => (5, 15/1000, 8)
  lap_time_noise_std : ℚ := 35/100
  wear_rate_noise_std : ℚ := 25/100
  fuel_burn_noise_std : ℚ := 8/100
  base_fuel_burn_rate : ℚ := 13/10
  base_puncture_prob : ℚ := 3/10000
  puncture_wear_multiplier : ℚ := 5
  rain_slowdown_factor : ℚ := 1/10
  rain_wear_reduction : ℚ := 7/10
  safety_car_duration_laps : ℕ := 3
  safety_car_lap_time_factor : ℚ := 145/100
  vsc_duration_laps : ℕ := 2
  vsc_lap_time_factor : ℚ := 13/10

/-- `Strategy` with `engine_modes` already resolved (the dataclass resolves a
missing `engine_modes` to all-NORMAL in `__post_init__`). -/
structure Strategy where
  name : String
  pit_laps : List ℤ
  tire_compounds : List TireCompound
  starting_fuel : ℚ
  engine_modes : List EngineMode
  deriving Repr

/-- `Strategy.__post_init__`: construction of a `Strategy`, with the dataclass
validation.  Checks, in source order: compound count = pit-stop count + 1;
default engine modes; starting fuel at most 110; starting fuel at least 80.
A Python `ValueError` is an `Except.error`. -/
def mkStrategy (name : String) (pit_laps : List ℤ) (tire_compounds : List TireCompound)
    (starting_fuel : ℚ) (engine_modes : Option (List EngineMode)) : Except String Strategy :=
  if tire_compounds.length ≠ pit_laps.length + 1 then
    .error "Need compounds for stops"
  else
    let modes := engine_modes.getD (List.replicate (pit_laps.length + 1) EngineMode.normal)
    if starting_fuel > 110 then .error "F1 max fuel is 110kg"
    else if starting_fuel < 80 then .error "Starting fuel too low"
    else .ok { name := name, pit_laps := pit_laps, tire_compounds := tire_compounds,
               starting_fuel := starting_fuel, engine_modes := modes }

/-! ## Player-car path: lap-time model and the per-run loop -/

/-- Embedding of the float power `w ** 1.5`: on the wear domain `w ≥ 0` this is
`√(w³)`. -/
noncomputable def pow15 (w : ℚ) : ℝ :=
  Real.sqrt ((w : ℝ) ^ 3)

/-- `RaceSimulator.our_car_performance_offset`, computed at construction as
`setup.get_performance_offset(track)`. -/
def ourCarPerformanceOffset (setup : CarSetup) (track : TrackConfig) : ℚ :=
  setup.get_performance_offset track

/-- `RaceSimulator._compute_lap_time`: single-lap time of the player car.
`tau = (tau_0 + k_wear·W^1.5 + k_fuel·F + compound_offset) / engine_factor + noise`,
floored at `tau_0 * 0.90`. -/
noncomputable def computeLapTime (rc : RaceConditions) (setup : CarSetup)
    (cfg : SimulationConfig) (wear fuel : ℚ) (compound : TireCompound)
    (engine_mode : EngineMode) (noise : ℝ) : ℝ :=
  let tau_0 : ℚ := rc.track.base_lap_time + ourCarPerformanceOffset setup rc.track
  let tau_wear : ℝ := (cfg.k_wear_lap_time : ℝ) * pow15 wear
  let tau_fuel : ℚ := cfg.k_fuel_lap_time * fuel
  let compound_offset : ℚ := (cfg.tireProperties compound).1
  let engine_factor : ℚ := engine_mode.value
  let tau : ℝ := ((tau_0 : ℝ) + tau_wear + (tau_fuel : ℝ) + (compound_offset : ℝ)) /
    (engine_factor : ℝ) + noise
  max tau ((tau_0 : ℝ) * (9/10))

/-- `RaceSimulator._compute_wear_rate`: compound base wear rate × track tire
stress × temperature factor. -/
def computeWearRate (rc : RaceConditions) (cfg : SimulationConfig)
    (compound : TireCompound) : ℚ :=
  let base_wear := (cfg.tireProperties compound).2.1
  let wear := base_wear * rc.track.tire_stress
  let temp_factor := 1 + (15/1000) * (rc.track_temp - 25)
  wear * temp_factor

/-- Mutable loop state of `_simulate_single_run` (current tire wear, fuel,
stint index, current compound and engine mode, next scheduled pit lap, and
accumulated race time). -/
structure RunAcc where
  w : ℚ
  fuel : ℚ
  stintIdx : ℕ
  compound : TireCompound
  mode : EngineMode
  nextPit : ℤ
  total : ℝ

/-- Result dictionary of `_simulate_single_run`. -/
structure RunResultCore where
  lapTimes : List ℝ
  tireWear : List ℚ
  fuelLvl : List ℚ
  total : ℝ
  dnf : Bool

/-- Pit-stop handling inside the lap loop: total time gains `pit_loss_time`,
wear resets to 0, the stint index advances, compound/engine mode switch to the
new stint's values when one exists, and the next-pit pointer advances (sentinel
9999 when no stop remains). -/
def pitUpdate (strat : Strategy) (pitLoss : ℚ) (s : RunAcc) : RunAcc :=
  let stint' := s.stintIdx + 1
  { s with
    total := s.total + (pitLoss : ℝ)
    w := 0
    stintIdx := stint'
    compound := strat.tire_compounds.getD stint' s.compound
    mode := strat.engine_modes.getD stint' s.mode
    nextPit := strat.pit_laps.getD stint' 9999 }

/-- The lap loop of `RaceSimulator._simulate_single_run`, by recursion on the
number of remaining laps (`rem`); `lap` is the current 0-based lap index.
Output arrays are pre-zeroed in the source (`np.zeros`), so on an early
fuel-depletion DNF the current lap and all remaining laps stay 0. -/
noncomputable def runLaps (rc : RaceConditions) (setup : CarSetup) (cfg : SimulationConfig)
    (strat : Strategy) (wearMult fuelMult : ℚ) (noise : ℕ → ℝ) (safetyCars : ℕ → Bool) :
    (rem : ℕ) → (lap : ℕ) → RunAcc → RunResultCore
  | 0, _, s => { lapTimes := [], tireWear := [], fuelLvl := [], total := s.total, dnf := false }
  | rem + 1, lap, s =>
    let s1 := if (lap : ℤ) + 1 = s.nextPit then pitUpdate strat rc.track.pit_loss_time s else s
    let lapTimeRaw := computeLapTime rc setup cfg s1.w s1.fuel s1.compound s1.mode (noise lap)
    let lapTime := if safetyCars lap then
        (rc.track.base_lap_time : ℝ) * (cfg.safety_car_lap_time_factor : ℝ)
      else lapTimeRaw
    let w2 := min (s1.w + computeWearRate rc cfg s1.compound * wearMult) 1
    let f2 := max (s1.fuel - setup.engineering.get_fuel_consumption_rate s1.mode
        rc.track.fuel_usage * fuelMult) 0
    if f2 ≤ 0 ∧ lap < rc.race_laps - 1 then
      { lapTimes := List.replicate (rem + 1) 0
        tireWear := List.replicate (rem + 1) 0
        fuelLvl := List.replicate (rem + 1) 0
        total := s1.total + lapTime
        dnf := true }
    else
      let rest := runLaps rc setup cfg strat wearMult fuelMult noise safetyCars rem (lap + 1)
        { s1 with w := w2, fuel := f2, total := s1.total + lapTime }
      { lapTimes := lapTime :: rest.lapTimes
        tireWear := w2 :: rest.tireWear
        fuelLvl := f2 :: rest.fuelLvl
        total := rest.total
        dnf := rest.dnf }

/-- Initial loop state of a player run: initial tire wear from the setup, fuel
from the strategy, first stint's compound/engine mode, first pit lap (sentinel
9999 for a no-stop strategy).  (A validated `Strategy` always has a first
compound and engine mode, so the `getD` defaults are never exercised.) -/
def initRunAcc (setup : CarSetup) (strat : Strategy) : RunAcc :=
  { w := setup.initial_tire_wear
    fuel := strat.starting_fuel
    stintIdx := 0
    compound := strat.tire_compounds.getD 0 .medium
    mode := strat.engine_modes.getD 0 .normal
    nextPit := strat.pit_laps.getD 0 9999
    total := 0 }

/-- The DNF sentinel total time, `1e9` seconds. -/
def dnfSentinel : ℚ := 10 ^ 9

/-- `RaceSimulator._simulate_single_run`: one Monte-Carlo realization of the
player's race.  A single reliability DNF check (engineering model) happens
before any lap; a reliability DNF returns all-zero arrays and the sentinel
total.  Otherwise the lap loop runs; a fuel-depletion DNF inside the loop also
records the sentinel total.  `dnfDraw` is the run's `self.rng.random()` draw
for the reliability check. -/
noncomputable def simulateSingleRun (rc : RaceConditions) (setup : CarSetup)
    (cfg : SimulationConfig) (strat : Strategy) (dnfDraw wearMult fuelMult : ℚ)
    (noise : ℕ → ℝ) (safetyCars : ℕ → Bool) : RunResultCore :=
  let N := rc.race_laps
  if (dnfDraw : ℝ) < setup.engineering.get_reliability_dnf_probability N then
    { lapTimes := List.replicate N 0, tireWear := List.replicate N 0,
      fuelLvl := List.replicate N 0, total := ((dnfSentinel : ℚ) : ℝ), dnf := true }
  else
    let core := runLaps rc setup cfg strat wearMult fuelMult noise safetyCars N 0
      (initRunAcc setup strat)
    if core.dnf then { core with total := ((dnfSentinel : ℚ) : ℝ) } else core

/-! ## Spec-modelled reference definitions (for refinement comparison)

These two definitions follow the specification's words, not the source, and
exist only to be compared with the source-derived definitions above. -/

/-- Modelled from the spec: the lap-time formula as the specification states
it, including the aero term `k_downforce * (1 - downforce) * 0.5` that the
spec places in the numerator. -/
noncomputable def computeLapTimeSpec (rc : RaceConditions) (setup : CarSetup)
    (cfg : SimulationConfig) (wear fuel : ℚ) (compound : TireCompound)
    (engine_mode : EngineMode) (noise : ℝ) : ℝ :=
  let base : ℚ := rc.track.base_lap_time + ourCarPerformanceOffset setup rc.track
  let wear_term : ℝ := (cfg.k_wear_lap_time : ℝ) * pow15 wear
  let fuel_term : ℚ := cfg.k_fuel_lap_time * fuel
  let aero_term : ℚ := cfg.k_downforce_lap_time * (1 - setup.downforce_level) * (5/10)
  let compound_offset : ℚ := (cfg.tireProperties compound).1
  let engine_factor : ℚ := engine_mode.value
  let lap_time : ℝ := ((base : ℝ) + wear_term + (fuel_term : ℝ) + (aero_term : ℝ) +
    (compound_offset : ℝ)) / (engine_factor : ℝ) + noise
  max lap_time ((base : ℝ) * (9/10))

/-- Modelled from the spec: the per-run lap loop as the specification states
it, with a per-lap puncture hazard checked after the lap time is computed and
before it is committed, with probability
`base_puncture_prob * (1 + puncture_wear_multiplier * W)` at current wear `W`;
on trigger the run ends immediately as a DNF at the sentinel total with the
remaining laps left unfilled.  `punctureDraws` are the per-lap hazard draws. -/
noncomputable def runLapsSpec (rc : RaceConditions) (setup : CarSetup) (cfg : SimulationConfig)
    (strat : Strategy) (wearMult fuelMult : ℚ) (noise : ℕ → ℝ) (safetyCars : ℕ → Bool)
    (punctureDraws : ℕ → ℚ) :
    (rem : ℕ) → (lap : ℕ) → RunAcc → RunResultCore
  | 0, _, s => { lapTimes := [], tireWear := [], fuelLvl := [], total := s.total, dnf := false }
  | rem + 1, lap, s =>
    let s1 := if (lap : ℤ) + 1 = s.nextPit then pitUpdate strat rc.track.pit_loss_time s else s
    let lapTimeRaw := computeLapTime rc setup cfg s1.w s1.fuel s1.compound s1.mode (noise lap)
    let lapTime := if safetyCars lap then
        (rc.track.base_lap_time : ℝ) * (cfg.safety_car_lap_time_factor : ℝ)
      else lapTimeRaw
    if punctureDraws lap < cfg.base_puncture_prob * (1 + cfg.puncture_wear_multiplier * s1.w) then
      { lapTimes := List.replicate (rem + 1) 0
        tireWear := List.replicate (rem + 1) 0
        fuelLvl := List.replicate (rem + 1) 0
        total := ((dnfSentinel : ℚ) : ℝ)
        dnf := true }
    else
      let w2 := min (s1.w + computeWearRate rc cfg s1.compound * wearMult) 1
      let f2 := max (s1.fuel - setup.engineering.get_fuel_consumption_rate s1.mode
          rc.track.fuel_usage * fuelMult) 0
      if f2 ≤ 0 ∧ lap < rc.race_laps - 1 then
        { lapTimes := List.replicate (rem + 1) 0
          tireWear := List.replicate (rem + 1) 0
          fuelLvl := List.replicate (rem + 1) 0
          total := ((dnfSentinel : ℚ) : ℝ)
          dnf := true }
      else
        let rest := runLapsSpec rc setup cfg strat wearMult fuelMult noise safetyCars
          punctureDraws rem (lap + 1) { s1 with w := w2, fuel := f2, total := s1.total + lapTime }
        { lapTimes := lapTime :: rest.lapTimes
          tireWear := w2 :: rest.tireWear
          fuelLvl := f2 :: rest.fuelLvl
          total := rest.total
          dnf := rest.dnf }

/-- Modelled from the spec: `simulateSingleRun` with the spec's per-lap
puncture hazard added (reliability check and fuel depletion as in the source;
claim C1's hazard model). -/
noncomputable def simulateSingleRunSpec (rc : RaceConditions) (setup : CarSetup)
    (cfg : SimulationConfig) (strat : Strategy) (dnfDraw wearMult fuelMult : ℚ)
    (noise : ℕ → ℝ) (safetyCars : ℕ → Bool) (punctureDraws : ℕ → ℚ) : RunResultCore :=
  let N := rc.race_laps
  if (dnfDraw : ℝ) < setup.engineering.get_reliability_dnf_probability N then
    { lapTimes := List.replicate N 0, tireWear := List.replicate N 0,
      fuelLvl := List.replicate N 0, total := ((dnfSentinel : ℚ) : ℝ), dnf := true }
  else
    runLapsSpec rc setup cfg strat wearMult fuelMult noise safetyCars punctureDraws N 0
      (initRunAcc setup strat)

/-! ## Position computation -/

/-- `RaceSimulator._compute_positions_stochastic`: for each run index, a DNF'd
player is placed behind every competitor that finished (time below `1e8`);
otherwise the position is 1 + the number of competitors strictly faster in the
same run.  Polymorphic in the time type (`ℚ` or `ℝ` in the pipeline). -/
def computePositionsStochastic {α : Type} [LinearOrderedField α]
    [DecidableRel ((· < ·) : α → α → Prop)] (numRuns : ℕ) (ourTimes : List α)
    (dnfFlags : List Bool) (competitorTimes : List (List α)) : List ℕ :=
  (List.range numRuns).map fun run_idx =>
    if dnfFlags.getD run_idx false then
      ((competitorTimes.getD run_idx []).countP fun t => decide (t < 10 ^ 8)) + 1
    else
      ((competitorTimes.getD run_idx []).countP
        fun t => decide (t < ourTimes.getD run_idx 0)) + 1

/-! ## Results aggregator (`SimulationResults.get_statistics`, `compute_utility`)

The aggregator operates on the stored per-run arrays.  Python floats are
rationals, so the aggregator is embedded over `ℚ` inputs; the only irrational
statistics are the standard deviations (`np.std`), which land in `ℝ`. -/

/-- Ascending sort (`np.sort`); any ascending sort has numpy's semantics, and
insertion sort keeps the definition kernel-reducible. -/
def npSort (xs : List ℚ) : List ℚ :=
  xs.insertionSort (· ≤ ·)

/-- `np.mean` of a rational vector (callers guard against the empty case). -/
def npMean (xs : List ℚ) : ℚ :=
  xs.sum / xs.length

/-- `np.mean` of a vector of naturals (positions). -/
def npMeanNat (xs : List ℕ) : ℚ :=
  ((xs.sum : ℚ)) / xs.length

/-- `np.median`: middle element of the sorted vector, or the average of the
two middle elements for even length. -/
def npMedian (xs : List ℚ) : ℚ :=
  let s := npSort xs
  let n := s.length
  if n % 2 = 1 then s.getD (n / 2) 0
  else (s.getD (n / 2 - 1) 0 + s.getD (n / 2) 0) / 2

/-- Population variance, `np.var` (the square of `np.std`). -/
def npVar (xs : List ℚ) : ℚ :=
  npMean (xs.map fun x => (x - npMean xs) ^ 2)

/-- `np.std`: population standard deviation. -/
noncomputable def npStd (xs : List ℚ) : ℝ :=
  Real.sqrt ((npVar xs : ℝ))

/-- `np.min` (callers guard against the empty case). -/
def npMin (xs : List ℚ) : ℚ :=
  match xs with
  | [] => 0
  | x :: t => t.foldl min x

/-- `np.max` (callers guard against the empty case). -/
def npMax (xs : List ℚ) : ℚ :=
  match xs with
  | [] => 0
  | x :: t => t.foldl max x

/-- The slow-tail slice `np.sort(xs)[-k:]` with `k = int(frac * len(xs))`:
the `k` largest elements — except that `k = 0` yields the whole array
(Python's `[-0:]` is `[0:]`). -/
def cvarTailSlice (frac : ℚ) (xs : List ℚ) : List ℚ :=
  let s := npSort xs
  let k := Nat.floor (frac * (xs.length : ℚ))
  if k = 0 then s else s.drop (s.length - k)

/-- `np.percentile` with the default linear interpolation, single percentile
`q` (0–100). -/
def npPercentile (xs : List ℚ) (q : ℚ) : ℚ :=
  let s := npSort xs
  let n := s.length
  let h : ℚ := ((n : ℚ) - 1) * q / 100
  let i := Nat.floor h
  let lo := s.getD i 0
  let hi := s.getD (i + 1) lo
  lo + (h - (i : ℚ)) * (hi - lo)

/-- `np.bincount(xs, minlength := m)`. -/
def npBincount (xs : List ℕ) (minlength : ℕ) : List ℕ :=
  let top := max minlength ((xs.foldr max 0) + 1)
  (List.range top).map fun v => xs.count v

/-- Column means of a runs×laps matrix (`np.mean(..., axis=0)`). -/
def colMeans (rows : List (List ℚ)) : List ℚ :=
  (List.range (rows.headD []).length).map fun j => npMean (rows.map fun r => r.getD j 0)

/-- Column standard deviations of a runs×laps matrix (`np.std(..., axis=0)`). -/
noncomputable def colStds (rows : List (List ℚ)) : List ℝ :=
  (List.range (rows.headD []).length).map fun j => npStd (rows.map fun r => r.getD j 0)

/-- The stored per-run arrays of a `SimulationResults`. -/
structure SimResultsData where
  lapTimes : List (List ℚ)
  tireWear : List (List ℚ)
  fuelLevel : List (List ℚ)
  totalTimes : List ℚ
  positions : List ℕ
  dnfFlags : List Bool
  deriving Repr

/-- `total_times[~dnf_flags]`: total times of the runs that finished. -/
def validTimes (d : SimResultsData) : List ℚ :=
  (d.totalTimes.zip d.dnfFlags).filterMap fun tf => if tf.2 then none else some tf.1

/-- `positions[~dnf_flags]`: positions of the runs that finished. -/
def validPositions (d : SimResultsData) : List ℕ :=
  (d.positions.zip d.dnfFlags).filterMap fun pf => if pf.2 then none else some pf.1

/-- A value stored in the statistics dictionary: `np.inf`, a rational scalar,
a real scalar (`np.std`), a rational vector, a real vector, or an integer
vector. -/
inductive StatVal where
  | infty : StatVal
  | q : ℚ → StatVal
  | r : ℝ → StatVal
  | qs : List ℚ → StatVal
  | rs : List ℝ → StatVal
  | ns : List ℕ → StatVal

/-- `SimulationResults.get_statistics` as the key-value dictionary it returns
(entries in source order).  When every run DNF'd it returns only the four-entry
summary dictionary.  (The `_stats` memoization cache has no observable effect
on a computed dictionary and is not modelled.) -/
noncomputable def getStatistics (d : SimResultsData) : List (String × StatVal) :=
  let valid_times := validTimes d
  let valid_positions := validPositions d
  if valid_times.length = 0 then
    [("mean_time", .infty), ("win_probability", .q 0), ("podium_probability", .q 0),
     ("dnf_probability", .q 1)]
  else
    [("mean_time", .q (npMean valid_times)),
     ("median_time", .q (npMedian valid_times)),
     ("std_time", .r (npStd valid_times)),
     ("min_time", .q (npMin valid_times)),
     ("max_time", .q (npMax valid_times)),
     ("mean_position", .q (npMeanNat valid_positions)),
     ("median_position", .q (npMedian (valid_positions.map fun p => (p : ℚ)))),
     ("win_probability", .q (((valid_positions.countP fun p => decide (p = 1)) : ℚ) /
        valid_positions.length)),
     ("podium_probability", .q (((valid_positions.countP fun p => decide (p ≤ 3)) : ℚ) /
        valid_positions.length)),
     ("top5_probability", .q (((valid_positions.countP fun p => decide (p ≤ 5)) : ℚ) /
        valid_positions.length)),
     ("top10_probability", .q (((valid_positions.countP fun p => decide (p ≤ 10)) : ℚ) /
        valid_positions.length)),
     ("dnf_probability", .q (((d.dnfFlags.countP id) : ℚ) / d.dnfFlags.length)),
     ("cvar_10", .q (npMean (cvarTailSlice (1/10) d.totalTimes))),
     ("cvar_5", .q (npMean (cvarTailSlice (5/100) d.totalTimes))),
     ("position_distribution", .ns (npBincount valid_positions 22)),
     ("time_percentiles", .qs ([5, 25, 50, 75, 95].map fun p => npPercentile valid_times p)),
     ("mean_lap_times", .qs (colMeans d.lapTimes)),
     ("std_lap_times", .rs (colStds d.lapTimes)),
     ("mean_tire_wear", .qs (colMeans d.tireWear)),
     ("mean_fuel", .qs (colMeans d.fuelLevel))]

/-- Dictionary access `stats[key]`; a missing key is a Python `KeyError`. -/
def getStatKey (stats : List (String × StatVal)) (key : String) : Except String StatVal :=
  match stats.lookup key with
  | some v => .ok v
  | none => .error key

/-- Numeric content of a finite scalar statistic.  (`compute_utility` only
reads scalar entries of the full dictionary, all finite; the fallback branches
are never exercised by it.) -/
noncomputable def StatVal.asReal : StatVal → ℝ
  | .q x => (x : ℝ)
  | .r x => x
  | _ => 0

/-- `SimulationResults.compute_utility`: risk-blended score
`(1-r)·conservative + r·aggressive`; reads, in evaluation order,
`dnf_probability`, `std_time`, `mean_time`, `win_probability`,
`podium_probability` from the statistics dictionary, and raises `KeyError`
(an `Except.error` naming the key) when one is absent. -/
noncomputable def computeUtility (d : SimResultsData) (risk_tolerance : ℝ) :
    Except String ℝ := do
  let stats := getStatistics d
  let dnf ← getStatKey stats "dnf_probability"
  let std ← getStatKey stats "std_time"
  let mean ← getStatKey stats "mean_time"
  let win ← getStatKey stats "win_probability"
  let podium ← getStatKey stats "podium_probability"
  let conservative : ℝ := (1 - dnf.asReal) * (6/10) +
    (1 / (1 + std.asReal / max mean.asReal 1)) * (4/10)
  let aggressive : ℝ := win.asReal * (7/10) + podium.asReal * (3/10)
  pure ((1 - risk_tolerance) * conservative + risk_tolerance * aggressive)

/-! ## Random-stream model and the competitor field

`np.random.RandomState(seed)` is a deterministic stream fixed by the seed.  It
is modelled as a stream of rational draws plus a cursor; `uniform`, `normal`
and `randint` apply their distribution transform to the next raw draw, and
`randint(low, high)` with `low ≥ high` raises (mirroring numpy's
`ValueError`). -/

/-- The state of a seeded generator: its raw draw stream and a cursor. -/
structure Rng where
  stream : ℕ → ℚ
  idx : ℕ

/-- Consume one raw draw (`rng.random()`; the raw value plays the role of the
sampled value, in `[0,1)` for uniform-type draws). -/
def Rng.next (r : Rng) : ℚ × Rng :=
  (r.stream r.idx, ⟨r.stream, r.idx + 1⟩)

/-- Consume `n` raw draws. -/
def Rng.nextList : Rng → ℕ → List ℚ × Rng
  | r, 0 => ([], r)
  | r, n + 1 =>
    let (u, r1) := r.next
    let (rest, r') := r1.nextList n
    (u :: rest, r')

/-- Consume a `rows × cols` matrix of raw draws, row-major (numpy's layout for
a `(num_runs, num_laps)` sample). -/
def Rng.nextMatrix : Rng → (rows : ℕ) → (cols : ℕ) → List (List ℚ) × Rng
  | r, 0, _ => ([], r)
  | r, rows + 1, cols =>
    let (row, r1) := r.nextList cols
    let (rest, r') := Rng.nextMatrix r1 rows cols
    (row :: rest, r')

/-- `rng.uniform(a, b)`. -/
def Rng.uniform (r : Rng) (a b : ℚ) : ℚ × Rng :=
  let (u, r') := r.next
  (a + (b - a) * u, r')

/-- `rng.uniform(a, b, n)`. -/
def Rng.uniformList (r : Rng) (a b : ℚ) (n : ℕ) : List ℚ × Rng :=
  let (us, r') := r.nextList n
  (us.map fun u => a + (b - a) * u, r')

/-- `rng.normal(mu, sigma)` for a rational sigma: the raw draw is the standard
normal variate. -/
def Rng.normalQ (r : Rng) (mu sigma : ℚ) : ℚ × Rng :=
  let (z, r') := r.next
  (mu + sigma * z, r')

/-- `rng.randint(low, high)`: integer in `[low, high)`; numpy raises
`ValueError` when `low ≥ high`. -/
def Rng.randint (r : Rng) (lo hi : ℤ) : Except String (ℤ × Rng) :=
  if lo < hi then
    let (u, r') := r.next
    .ok (lo + ⌊u * (((hi - lo) : ℤ) : ℚ)⌋, r')
  else .error "ValueError: low >= high"

/-- The generated opponent grid: per-competitor pace offsets and strategies. -/
structure CompetitorField where
  basePace : List ℚ
  strategies : List Strategy
  deriving Repr

/-- `CompetitorField._generate_realistic_field`: three pace tiers (6
front-runners, up to 8 midfielders, rest backmarkers) plus Gaussian jitter.
The source assigns a 6-element sample into `pace[:6]`, which numpy can only
broadcast when the grid has at least 6 cars; fewer competitors raise. -/
def generateRealisticField (n : ℕ) (rng : Rng) : Except String (List ℚ × Rng) :=
  if n < 6 then .error "ValueError: could not broadcast input array"
  else
    let (u1, r1) := rng.uniformList (-(3/10)) (4/10) 6
    let midfield := min 8 (n - 6)
    let (u2, r2) := r1.uniformList (4/10) (12/10) midfield
    let backmarkers := n - 6 - midfield
    let (u3, r3) := if 0 < backmarkers then r2.uniformList (12/10) (25/10) backmarkers
      else ([], r2)
    let (z, r4) := r3.nextList n
    .ok (List.zipWith (fun p zi => p + (1/10) * zi) (u1 ++ u2 ++ u3) z, r4)

/-- `CompetitorField._assign_competitor_strategies`, one iteration per
competitor `i` (of `count` remaining): a one-stop plan with probability 0.65
(pit window `[max(L//3,15), min(2L//3, L-10))`), else a two-stop plan
(`pit1 ∈ [max(L//5,10), max(L//3,20))`, `pit2 ∈ [pit1+12, min(3L//4, L-8))`).
`randint` window errors and `Strategy` validation errors propagate — the
source has no retry or fallback. -/
def assignCompetitorStrategies (rc : RaceConditions) :
    (count : ℕ) → (i : ℕ) → Rng → Except String (List Strategy × Rng)
  | 0, _, r => .ok ([], r)
  | count + 1, i, r => do
    let L : ℤ := (rc.race_laps : ℤ)
    let (start_fuel, r1) := r.uniform 100 110
    let (p, r2) := r1.next
    if p < 65/100 then
      let (pit_lap, r3) ← r2.randint (max ((rc.race_laps / 3 : ℕ) : ℤ) 15)
        (min ((2 * rc.race_laps / 3 : ℕ) : ℤ) (L - 10))
      let (ci, r4) ← r3.randint 0 2
      let compounds := if ci = 0 then [TireCompound.medium, TireCompound.hard]
        else [TireCompound.soft, TireCompound.hard]
      let code := if ci = 0 then "MH" else "SH"
      let s ← mkStrategy ("Comp" ++ toString i ++ "_1stop_" ++ code) [pit_lap] compounds
        start_fuel none
      let (rest, r') ← assignCompetitorStrategies rc count (i + 1) r4
      .ok (s :: rest, r')
    else
      let (pit1, r3) ← r2.randint (max ((rc.race_laps / 5 : ℕ) : ℤ) 10)
        (max ((rc.race_laps / 3 : ℕ) : ℤ) 20)
      let (pit2, r4) ← r3.randint (pit1 + 12)
        (min ((3 * rc.race_laps / 4 : ℕ) : ℤ) (L - 8))
      let s ← mkStrategy ("Comp" ++ toString i ++ "_2stop_SMM") [pit1, pit2]
        [TireCompound.soft, TireCompound.medium, TireCompound.medium] start_fuel none
      let (rest, r') ← assignCompetitorStrategies rc count (i + 1) r4
      .ok (s :: rest, r')

/-- `CompetitorField.__init__`: pace field then strategy assignment, sharing
the simulator's generator.  (`sim_config` is stored but not read by the
generation itself.) -/
def mkCompetitorField (rc : RaceConditions) (_cfg : SimulationConfig) (rng : Rng) :
    Except String (CompetitorField × Rng) := do
  let (pace, r1) ← generateRealisticField rc.num_competitors rng
  let (strats, r2) ← assignCompetitorStrategies rc rc.num_competitors 0 r1
  .ok ({ basePace := pace, strategies := strats }, r2)

/-! ## Competitor-time path -/

/-- Stint lengths from consecutive differences of `pit_laps ++ [race_laps]`. -/
def diffsFrom : ℤ → List ℤ → List ℤ
  | _, [] => []
  | prev, p :: t => (p - prev) :: diffsFrom p t

/-- `RaceSimulator._calculate_expected_race_time`: deterministic expected race
time of a car with pace offset `base_pace` running `strategy` — the analytic
lap-time sum without per-lap noise or safety cars. -/
noncomputable def calcExpectedRaceTime (rc : RaceConditions) (cfg : SimulationConfig)
    (base_pace : ℚ) (strategy : Strategy) (starting_fuel : ℚ) : ℝ :=
  let stint_laps := diffsFrom 0 (strategy.pit_laps ++ [(rc.race_laps : ℤ)])
  let burn_rate := cfg.base_fuel_burn_rate * rc.track.fuel_usage
  let step := fun (acc : ℝ × ℚ) (si : ℕ × ℤ) =>
    let stint_idx := si.1
    let stint_length := si.2
    let compound := strategy.tire_compounds.getD stint_idx .medium
    let compound_offset := (cfg.tireProperties compound).1
    let base_wear_rate := (cfg.tireProperties compound).2.1
    let inner := (List.range stint_length.toNat).foldl (fun (a : ℝ × ℚ) lap_in_stint =>
      let tire_wear : ℚ := ((lap_in_stint : ℚ) / ((max stint_length 1 : ℤ) : ℚ)) *
        base_wear_rate * (stint_length : ℚ)
      let tire_deg : ℝ := (cfg.k_wear_lap_time : ℝ) * pow15 tire_wear
      let fuel_effect : ℚ := cfg.k_fuel_lap_time * a.2
      let lap_time : ℝ := (rc.track.base_lap_time : ℝ) + (base_pace : ℝ) +
        (compound_offset : ℝ) + tire_deg + (fuel_effect : ℝ)
      (a.1 + lap_time, max (a.2 - burn_rate) 0)) acc
    if stint_idx < strategy.pit_laps.length then
      (inner.1 + (rc.track.pit_loss_time : ℝ), inner.2)
    else inner
  (stint_laps.enum.foldl step ((0 : ℝ), starting_fuel)).1

/-- One non-DNF competitor race-time sample: variance contributions summed in
quadrature, an occasional (8%) outlier, floored at `0.88 × expected`. -/
noncomputable def simulateCompetitorRun (rc : RaceConditions) (cfg : SimulationConfig)
    (expected : ℝ) (strategy : Strategy) (rng : Rng) : ℝ × Rng :=
  let lap_variance_total : ℝ := (cfg.lap_time_noise_std : ℝ) * Real.sqrt (rc.race_laps : ℝ)
  let pit_variance : ℚ := (5/10) * strategy.pit_laps.length
  let (z1, r1) := rng.next
  let random_events : ℝ := 2 * (z1 : ℝ)
  let total_std : ℝ := Real.sqrt (lap_variance_total ^ 2 + ((pit_variance : ℝ)) ^ 2 + 16)
  let (z2, r2) := r1.next
  let run_variance : ℝ := total_std * (z2 : ℝ)
  let race_time := expected + run_variance + random_events
  let (u3, r3) := r2.next
  if u3 < 8/100 then
    let (z4, r4) := r3.next
    (max (race_time + total_std * (15/10) * (z4 : ℝ)) (expected * (88/100)), r4)
  else
    (max race_time (expected * (88/100)), r3)

/-- The per-run inner loop of `_simulate_competitor_field_stochastic` for one
competitor: a DNF Bernoulli per run (DNF'd runs record the `1e9` sentinel and
skip the remaining draws), else a sampled race time. -/
noncomputable def competitorRunsLoop (rc : RaceConditions) (cfg : SimulationConfig)
    (expected : ℝ) (dnfProb : ℚ) (strategy : Strategy) :
    (runs : ℕ) → Rng → List ℝ × Rng
  | 0, r => ([], r)
  | runs + 1, r =>
    let (u, r1) := r.next
    if u < dnfProb then
      let (rest, r') := competitorRunsLoop rc cfg expected dnfProb strategy runs r1
      (((dnfSentinel : ℚ) : ℝ) :: rest, r')
    else
      let (t, r2) := simulateCompetitorRun rc cfg expected strategy r1
      let (rest, r') := competitorRunsLoop rc cfg expected dnfProb strategy runs r2
      (t :: rest, r')

/-- The outer (per-competitor) loop of `_simulate_competitor_field_stochastic`:
per competitor, a uniform fuel load, the analytic expected time, a pace-based
DNF probability `0.03·(1 + max(0, pace/2))`, then the per-run samples.
Returns competitor-major columns. -/
noncomputable def competitorFieldTimes (rc : RaceConditions) (cfg : SimulationConfig)
    (field : CompetitorField) : (count : ℕ) → (compIdx : ℕ) → Rng → List (List ℝ) × Rng
  | 0, _, r => ([], r)
  | count + 1, ci, r =>
    let base_pace := field.basePace.getD ci 0
    let strategy := field.strategies.getD ci
      { name := "", pit_laps := [], tire_compounds := [], starting_fuel := 0, engine_modes := [] }
    let (competitor_fuel, r1) := r.uniform 105 109
    let expected := calcExpectedRaceTime rc cfg base_pace strategy competitor_fuel
    let dnfProb := (3/100) * (1 + max 0 (base_pace / 2))
    let (col, r2) := competitorRunsLoop rc cfg expected dnfProb strategy cfg.num_runs r1
    let (rest, r') := competitorFieldTimes rc cfg field count (ci + 1) r2
    (col :: rest, r')

/-- Run-major rows of the competitor time matrix
(`competitor_times[run_idx]`). -/
noncomputable def competitorRows (numRuns : ℕ) (cols : List (List ℝ)) : List (List ℝ) :=
  (List.range numRuns).map fun run_idx => cols.map fun col => col.getD run_idx 0

/-! ## The full `simulate_strategy` pipeline -/

/-- The ensemble output of `simulate_strategy` (the array fields of
`SimulationResults`). -/
structure EnsembleResults where
  lapTimes : List (List ℝ)
  tireWear : List (List ℚ)
  fuelLevel : List (List ℚ)
  totalTimes : List ℝ
  positions : List ℕ
  dnfFlags : List Bool

/-- `np.clip(x, lo, hi)`. -/
def npClip (x lo hi : ℚ) : ℚ :=
  min (max x lo) hi

/-- The per-run player loop of `simulate_strategy`: one reliability draw per
run, then `_simulate_single_run` with that run's pre-drawn multipliers, noise
row and safety-car row. -/
noncomputable def playerRunsLoop (rc : RaceConditions) (setup : CarSetup)
    (cfg : SimulationConfig) (strat : Strategy) (wearMults fuelMults : List ℚ)
    (noiseRows : List (List ℚ)) (scRows : List (List Bool)) :
    (runs : ℕ) → (idx : ℕ) → Rng → List RunResultCore × Rng
  | 0, _, r => ([], r)
  | runs + 1, idx, r =>
    let (dnfDraw, r1) := r.next
    let res := simulateSingleRun rc setup cfg strat dnfDraw (wearMults.getD idx 0)
      (fuelMults.getD idx 0)
      (fun lap => (((noiseRows.getD idx []).getD lap 0 : ℚ) : ℝ))
      (fun lap => (scRows.getD idx []).getD lap false)
    let (rest, r') := playerRunsLoop rc setup cfg strat wearMults fuelMults noiseRows scRows
      runs (idx + 1) r1
    (res :: rest, r')

/-- `RaceSimulator.__init__` followed by the first `simulate_strategy(strategy)`
call: the competitor field is generated at construction from the seeded
generator; `simulate_strategy` validates the compound rule, draws the per-run
wear/fuel multipliers (clipped Gaussians), the per-lap noise matrix and
safety-car indicator matrix, samples the competitor ensemble, simulates the
player runs, and ranks positions run by run. -/
noncomputable def simulateStrategyPipeline (rc : RaceConditions) (setup : CarSetup)
    (cfg : SimulationConfig) (stream : ℕ → ℚ) (strat : Strategy) :
    Except String EnsembleResults := do
  let rng0 : Rng := { stream := stream, idx := 0 }
  let (field, rng1) ← mkCompetitorField rc cfg rng0
  if ¬rc.refueling_allowed ∧ strat.tire_compounds.dedup.length < rc.min_compounds_required then
    .error "F1 rules: must use different compounds"
  else
    let (wmRaw, r2) := rng1.nextList cfg.num_runs
    let wearMults := wmRaw.map fun z => npClip (1 + cfg.wear_rate_noise_std * z) (6/10) (14/10)
    let (fmRaw, r3) := r2.nextList cfg.num_runs
    let fuelMults := fmRaw.map fun z => npClip (1 + cfg.fuel_burn_noise_std * z) (9/10) (11/10)
    let (nzRaw, r4) := Rng.nextMatrix r3 cfg.num_runs rc.race_laps
    let noiseRows := nzRaw.map fun row => row.map fun z =>
      (cfg.lap_time_noise_std * (13/10)) * z
    let (scRaw, r5) := Rng.nextMatrix r4 cfg.num_runs rc.race_laps
    let scRows := scRaw.map fun row => row.map fun u => decide (u < rc.safety_car_prob)
    let (compCols, r6) := competitorFieldTimes rc cfg field rc.num_competitors 0 r5
    let compRows := competitorRows cfg.num_runs compCols
    let (runResults, _r7) := playerRunsLoop rc setup cfg strat wearMults fuelMults noiseRows
      scRows cfg.num_runs 0 r6
    let totalTimes := runResults.map fun res => res.total
    let dnfFlags := runResults.map fun res => res.dnf
    let positions := computePositionsStochastic cfg.num_runs totalTimes dnfFlags compRows
    .ok { lapTimes := runResults.map fun res => res.lapTimes
          tireWear := runResults.map fun res => res.tireWear
          fuelLevel := runResults.map fun res => res.fuelLvl
          totalTimes := totalTimes
          positions := positions
          dnfFlags := dnfFlags }

/-! ## Ensemble-level helpers for the safety-car monotonicity property -/

/-- The per-run stochastic inputs of one player Monte-Carlo run (reliability
draw, wear and fuel multipliers, per-lap noise), drawn before the lap loop. -/
structure RunDraws where
  dnfDraw : ℚ
  wearMult : ℚ
  fuelMult : ℚ
  noise : ℕ → ℝ

/-- Total times of a player ensemble for a per-run/per-lap safety-car
indicator `sc`. -/
noncomputable def ensembleTotals (rc : RaceConditions) (setup : CarSetup)
    (cfg : SimulationConfig) (strat : Strategy) (draws : List RunDraws)
    (sc : ℕ → ℕ → Bool) : List ℝ :=
  draws.enum.map fun rd =>
    (simulateSingleRun rc setup cfg strat rd.2.dnfDraw rd.2.wearMult rd.2.fuelMult
      rd.2.noise (sc rd.1)).total

/-- Mean total time of the ensemble. -/
noncomputable def ensembleMeanTotal (rc : RaceConditions) (setup : CarSetup)
    (cfg : SimulationConfig) (strat : Strategy) (draws : List RunDraws)
    (sc : ℕ → ℕ → Bool) : ℝ :=
  (ensembleTotals rc setup cfg strat draws sc).sum /
    (ensembleTotals rc setup cfg strat draws sc).length

/-- The time/position statistics that claim C4 lists (everything except the
tail-risk entries). -/
def timeStatKeys : List String :=
  ["mean_time", "median_time", "std_time", "min_time", "max_time", "mean_position",
   "median_position", "win_probability", "podium_probability", "top5_probability",
   "top10_probability", "dnf_probability", "time_percentiles"]

/-! ## Concrete fixtures used by witnesses and counterexamples -/

/-- A 90-second, 20-corner track with default pit loss / stress / fuel usage. -/
def trackW : TrackConfig := { base_lap_time := 90, num_corners := 20 }

/-- A one-lap race on `trackW` (six competitors, one compound required). -/
def rcW : RaceConditions :=
  { race_laps := 1, track := trackW, num_competitors := 6, min_compounds_required := 1 }

/-- The default car setup after `__post_init__`. -/
def setupW : CarSetup := applyCarSetup {}

/-- The default simulation configuration with a single Monte-Carlo run. -/
def cfgW : SimulationConfig := { num_runs := 1 }

/-- A no-stop medium-compound strategy with 105 kg of fuel. -/
def stratW : Strategy :=
  { name := "W", pit_laps := [], tire_compounds := [.medium], starting_fuel := 105,
    engine_modes := [.normal] }

/-- A two-lap race on `trackW`. -/
def rcFuel : RaceConditions := { race_laps := 2, track := trackW, num_competitors := 6 }

/-- A car whose fuel-flow parameter empties a 105 kg tank on the first lap. -/
def setupFuel : CarSetup :=
  applyCarSetup { engineering := { fuel_flow_rate_kg_per_hour := 400000 } }

/-- A 20-lap race: its one-stop pit window `[max(20//3,15), min(2·20//3, 20-10))
= [15, 10)` and its two-stop second window are both degenerate. -/
def rc20 : RaceConditions := { race_laps := 20, track := trackW, num_competitors := 6 }

/-- A 58-lap race with non-degenerate competitor pit windows. -/
def rc58 : RaceConditions := { race_laps := 58, track := trackW, num_competitors := 6 }

/-- The constant-1/2 raw draw stream. -/
def rngHalf : Rng := { stream := fun _ => 1/2, idx := 0 }

/-- Ten-run ensemble: nine finishers at 100 s and one DNF at the sentinel. -/
def d4 : SimResultsData :=
  { lapTimes := [], tireWear := [], fuelLevel := [],
    totalTimes := [100, 100, 100, 100, 100, 100, 100, 100, 100, 10 ^ 9],
    positions := [2, 2, 2, 2, 2, 2, 2, 2, 2, 21],
    dnfFlags := [false, false, false, false, false, false, false, false, false, true] }

/-- `d4` with the DNF run's recorded total changed (same finishers, same
flags). -/
def d4' : SimResultsData :=
  { lapTimes := [], tireWear := [], fuelLevel := [],
    totalTimes := [100, 100, 100, 100, 100, 100, 100, 100, 100, 200],
    positions := [2, 2, 2, 2, 2, 2, 2, 2, 2, 21],
    dnfFlags := [false, false, false, false, false, false, false, false, false, true] }

/-- `d4` with the DNF run's recorded total **and** recorded position changed
(same finishers, same flags): statistics computed over the non-DNF runs only
cannot distinguish it from `d4`. -/
def d4p : SimResultsData :=
  { lapTimes := [], tireWear := [], fuelLevel := [],
    totalTimes := [100, 100, 100, 100, 100, 100, 100, 100, 100, 200],
    positions := [2, 2, 2, 2, 2, 2, 2, 2, 2, 5],
    dnfFlags := [false, false, false, false, false, false, false, false, false, true] }

/-- A two-run ensemble in which every run DNF'd. -/
def dAllDnf : SimResultsData :=
  { lapTimes := [], tireWear := [], fuelLevel := [],
    totalTimes := [10 ^ 9, 10 ^ 9], positions := [7, 7], dnfFlags := [true, true] }

/-- A two-run ensemble in which the first run finished. -/
def dMixed : SimResultsData :=
  { lapTimes := [[90], [0]], tireWear := [[1/2], [0]], fuelLevel := [[100], [0]],
    totalTimes := [100, 10 ^ 9], positions := [1, 7], dnfFlags := [false, true] }

/-! ## Shared helper lemmas -/

theorem EngineMode.value_pos (m : EngineMode) : 0 < m.value := by
  cases m <;> norm_num [EngineMode.value]

theorem pow15_zero : pow15 0 = 0 := by
  simp [pow15]

theorem pow15_nonneg (w : ℚ) : 0 ≤ pow15 w :=
  Real.sqrt_nonneg _

theorem pow15_le_one {w : ℚ} (h0 : 0 ≤ w) (h1 : w ≤ 1) : pow15 w ≤ 1 := by
  have h3 : ((w : ℝ)) ^ 3 ≤ 1 := by
    have : (w : ℝ) ≤ 1 := by exact_mod_cast h1
    have : (0 : ℝ) ≤ (w : ℝ) := by exact_mod_cast h0
    exact pow_le_one₀ (by assumption) (by exact_mod_cast h1)
  calc Real.sqrt ((w : ℝ) ^ 3) ≤ Real.sqrt 1 := Real.sqrt_le_sqrt h3
    _ = 1 := Real.sqrt_one

/-- The reliability DNF probability is capped at 1/2, so a raw draw of 0.9
never triggers it. -/
theorem reliability_draw_nine_tenths_safe (e : CarEngineering) (n : ℕ) :
    ¬ (((9/10 : ℚ) : ℝ) < e.get_reliability_dnf_probability n) := by
  refine not_lt.mpr ?_
  calc e.get_reliability_dnf_probability n ≤ 1/2 := min_le_right _ _
    _ ≤ ((9/10 : ℚ) : ℝ) := by push_cast; norm_num

theorem snd_mem_of_mem_enum {α : Type} {p : ℕ × α} :
    ∀ {l : List α} {k : ℕ}, p ∈ l.enumFrom k → p.2 ∈ l := by
  intro l
  induction l with
  | nil => intro k h; simp [List.enumFrom] at h
  | cons a t ih =>
    intro k h
    simp only [List.enumFrom] at h
    rcases List.mem_cons.mp h with h | h
    · subst h; simp
    · exact List.mem_cons_of_mem _ (ih h)

/-! ## C5 — two-run determinism of the pipeline -/

/-- C5: two `RaceSimulator` instances constructed from identical
`RaceConditions`, `CarSetup` and `SimulationConfig` (hence the same
`random_seed`, hence the same seeded draw stream) produce, for the same first
`simulate_strategy` call, identical ensembles: equal total-time vectors, DNF
flag vectors, position vectors and per-lap matrices (the full
`EnsembleResults` records coincide). -/
theorem pipeline_two_instance_determinism (rngOf : ℤ → ℕ → ℚ)
    (rc1 rc2 : RaceConditions) (cs1 cs2 : CarSetup) (cfg1 cfg2 : SimulationConfig)
    (st1 st2 : Strategy) (hrc : rc1 = rc2) (hcs : cs1 = cs2) (hcfg : cfg1 = cfg2)
    (hst : st1 = st2) :
    simulateStrategyPipeline rc1 cs1 cfg1 (rngOf cfg1.random_seed) st1 =
      simulateStrategyPipeline rc2 cs2 cfg2 (rngOf cfg2.random_seed) st2 := by
  subst hrc; subst hcs; subst hcfg; subst hst; rfl

/-- Witness for C5 at a concrete configuration and stream. -/
theorem pipeline_two_instance_determinism_witness :
    simulateStrategyPipeline rcW setupW cfgW ((fun _ _ => (1/2 : ℚ)) cfgW.random_seed) stratW =
      simulateStrategyPipeline rcW setupW cfgW ((fun _ _ => (1/2 : ℚ)) cfgW.random_seed) stratW :=
  pipeline_two_instance_determinism (fun _ _ => (1/2 : ℚ)) rcW rcW setupW setupW cfgW cfgW
    stratW stratW rfl rfl rfl rfl

/-! ## C6 — strategy validation -/

/-- C6: `Strategy` construction fails exactly when the compound count is not
`len(pit_laps) + 1`, or the starting fuel exceeds 110, or is below 80; any
other input constructs (no monotonicity or range check on `pit_laps`), and an
omitted `engine_modes` defaults to NORMAL for every stint. -/
theorem strategy_construction_iff (name : String) (pit_laps : List ℤ)
    (tire_compounds : List TireCompound) (starting_fuel : ℚ)
    (engine_modes : Option (List EngineMode)) :
    ((∃ s, mkStrategy name pit_laps tire_compounds starting_fuel engine_modes = .ok s) ↔
      (tire_compounds.length = pit_laps.length + 1 ∧ starting_fuel ≤ 110 ∧
        80 ≤ starting_fuel)) ∧
    (∀ s, mkStrategy name pit_laps tire_compounds starting_fuel none = .ok s →
      s.engine_modes = List.replicate (pit_laps.length + 1) EngineMode.normal) := by
  constructor
  · constructor
    · rintro ⟨s, hs⟩
      simp only [mkStrategy] at hs
      split_ifs at hs with h1 h2 h3
      · push_neg at h1
        exact ⟨h1, not_lt.mp h2, not_lt.mp h3⟩
    · rintro ⟨h1, h2, h3⟩
      simp only [mkStrategy]
      rw [if_neg (by simpa using h1), if_neg (not_lt.mpr h2), if_neg (not_lt.mpr h3)]
      exact ⟨_, rfl⟩
  · intro s hs
    simp only [mkStrategy] at hs
    split_ifs at hs with h1 h2 h3
    cases hs
    rfl

/-- Witness for C6: a well-formed one-stop strategy constructs, via the
validation characterization. -/
theorem strategy_construction_iff_witness :
    ∃ s, mkStrategy "w6" [5] [.medium, .hard] 100 none = .ok s :=
  (strategy_construction_iff "w6" [5] [.medium, .hard] 100 none).1.mpr (by decide)

/-! ## C2 — position computation -/

/-- C2: per Monte-Carlo run `r`, a DNF'd player is placed one past the count
of competitors whose time in run `r` lies below the `1e8` finish threshold;
otherwise one past the count of competitors strictly faster than the player in
the same run; hence the position always lies in `[1, num_competitors + 1]`. -/
theorem positions_same_run_rank {α : Type} [LinearOrderedField α]
    [DecidableRel ((· < ·) : α → α → Prop)] (numRuns n : ℕ) (ourTimes : List α)
    (dnfFlags : List Bool) (competitorTimes : List (List α))
    (hlen : ∀ row ∈ competitorTimes, row.length = n)
    (r : ℕ) (hr : r < numRuns) (hrc : r < competitorTimes.length) :
    (computePositionsStochastic numRuns ourTimes dnfFlags competitorTimes).getD r 0 =
      (if dnfFlags.getD r false then
        ((competitorTimes.getD r []).countP fun t => decide (t < 10 ^ 8)) + 1
      else
        ((competitorTimes.getD r []).countP fun t => decide (t < ourTimes.getD r 0)) + 1) ∧
    1 ≤ (computePositionsStochastic numRuns ourTimes dnfFlags competitorTimes).getD r 0 ∧
    (computePositionsStochastic numRuns ourTimes dnfFlags competitorTimes).getD r 0 ≤ n + 1 := by
  have hmain : (computePositionsStochastic numRuns ourTimes dnfFlags competitorTimes).getD r 0 =
      (if dnfFlags.getD r false then
        ((competitorTimes.getD r []).countP fun t => decide (t < 10 ^ 8)) + 1
      else
        ((competitorTimes.getD r []).countP fun t => decide (t < ourTimes.getD r 0)) + 1) := by
    unfold computePositionsStochastic
    rw [List.getD_eq_getElem?_getD, List.getElem?_map, List.getElem?_range hr]
    rfl
  have hrow : (competitorTimes.getD r []).length = n := by
    rw [List.getD_eq_getElem _ _ hrc]
    exact hlen _ (List.getElem_mem hrc)
  refine ⟨hmain, ?_, ?_⟩
  · rw [hmain]; split <;> exact Nat.succ_le_succ (Nat.zero_le _)
  · rw [hmain]; split <;> exact Nat.succ_le_succ (hrow ▸ List.countP_le_length _)

/-- Witness for C2 on a concrete two-run, two-competitor ensemble (run 1 is a
player DNF). -/
theorem positions_same_run_rank_witness :
    (computePositionsStochastic (α := ℚ) 2 [100, 50] [false, true]
      [[90, 200], [10, 20]]).getD 1 0 =
      (if ([false, true].getD 1 false) then
        ((([[90, 200], [10, 20]] : List (List ℚ)).getD 1 []).countP
          fun t => decide (t < 10 ^ 8)) + 1
      else
        ((([[90, 200], [10, 20]] : List (List ℚ)).getD 1 []).countP
          fun t => decide (t < ([100, 50] : List ℚ).getD 1 0)) + 1) ∧
    1 ≤ (computePositionsStochastic (α := ℚ) 2 [100, 50] [false, true]
      [[90, 200], [10, 20]]).getD 1 0 ∧
    (computePositionsStochastic (α := ℚ) 2 [100, 50] [false, true]
      [[90, 200], [10, 20]]).getD 1 0 ≤ 2 + 1 :=
  positions_same_run_rank 2 2 [100, 50] [false, true] [[90, 200], [10, 20]]
    (by decide) 1 (by decide) (by decide)

/-! ## C7 — wear and fuel stay in range -/

/-- Loop invariant: starting from a state with wear in `[0,1]` and fuel in
`[0, F0]`, every recorded wear entry stays in `[0,1]` and every recorded fuel
entry in `[0, F0]` (wear is clamped above at 1 and reset at pits; fuel is
clamped below at 0 and only ever decreases). -/
theorem runLaps_telemetry_bounds (rc : RaceConditions) (setup : CarSetup)
    (cfg : SimulationConfig) (strat : Strategy) (wearMult fuelMult : ℚ)
    (noise : ℕ → ℝ) (safetyCars : ℕ → Bool) (F0 : ℚ)
    (hrate : ∀ c : TireCompound, 0 ≤ computeWearRate rc cfg c * wearMult)
    (hburn : ∀ m : EngineMode,
      0 ≤ setup.engineering.get_fuel_consumption_rate m rc.track.fuel_usage * fuelMult)
    (hF0 : 0 ≤ F0) :
    ∀ (rem lap : ℕ) (s : RunAcc), 0 ≤ s.w → s.w ≤ 1 → 0 ≤ s.fuel → s.fuel ≤ F0 →
      (∀ x ∈ (runLaps rc setup cfg strat wearMult fuelMult noise safetyCars
        rem lap s).tireWear, 0 ≤ x ∧ x ≤ 1) ∧
      (∀ x ∈ (runLaps rc setup cfg strat wearMult fuelMult noise safetyCars
        rem lap s).fuelLvl, 0 ≤ x ∧ x ≤ F0) := by
  intro rem
  induction rem with
  | zero =>
    intro lap s _ _ _ _
    simp [runLaps]
  | succ rem ih =>
    intro lap s hw0 hw1 hf0 hfF
    have step : ∀ s1 : RunAcc, 0 ≤ s1.w → s1.w ≤ 1 → 0 ≤ s1.fuel → s1.fuel ≤ F0 →
        ∀ lt : ℝ,
        (∀ x ∈ (if (max (s1.fuel - setup.engineering.get_fuel_consumption_rate s1.mode
              rc.track.fuel_usage * fuelMult) 0) ≤ 0 ∧ lap < rc.race_laps - 1 then
            ({ lapTimes := List.replicate (rem + 1) 0
               tireWear := List.replicate (rem + 1) 0
               fuelLvl := List.replicate (rem + 1) 0
               total := s1.total + lt
               dnf := true } : RunResultCore)
          else
            let rest := runLaps rc setup cfg strat wearMult fuelMult noise safetyCars rem
              (lap + 1)
              { s1 with
                w := min (s1.w + computeWearRate rc cfg s1.compound * wearMult) 1
                fuel := max (s1.fuel - setup.engineering.get_fuel_consumption_rate s1.mode
                  rc.track.fuel_usage * fuelMult) 0
                total := s1.total + lt }
            { lapTimes := lt :: rest.lapTimes
              tireWear := min (s1.w + computeWearRate rc cfg s1.compound * wearMult) 1 ::
                rest.tireWear
              fuelLvl := max (s1.fuel - setup.engineering.get_fuel_consumption_rate s1.mode
                rc.track.fuel_usage * fuelMult) 0 :: rest.fuelLvl
              total := rest.total
              dnf := rest.dnf }).tireWear, 0 ≤ x ∧ x ≤ 1) ∧
        (∀ x ∈ (if (max (s1.fuel - setup.engineering.get_fuel_consumption_rate s1.mode
              rc.track.fuel_usage * fuelMult) 0) ≤ 0 ∧ lap < rc.race_laps - 1 then
            ({ lapTimes := List.replicate (rem + 1) 0
               tireWear := List.replicate (rem + 1) 0
               fuelLvl := List.replicate (rem + 1) 0
               total := s1.total + lt
               dnf := true } : RunResultCore)
          else
            let rest := runLaps rc setup cfg strat wearMult fuelMult noise safetyCars rem
              (lap + 1)
              { s1 with
                w := min (s1.w + computeWearRate rc cfg s1.compound * wearMult) 1
                fuel := max (s1.fuel - setup.engineering.get_fuel_consumption_rate s1.mode
                  rc.track.fuel_usage * fuelMult) 0
                total := s1.total + lt }
            { lapTimes := lt :: rest.lapTimes
              tireWear := min (s1.w + computeWearRate rc cfg s1.compound * wearMult) 1 ::
                rest.tireWear
              fuelLvl := max (s1.fuel - setup.engineering.get_fuel_consumption_rate s1.mode
                rc.track.fuel_usage * fuelMult) 0 :: rest.fuelLvl
              total := rest.total
              dnf := rest.dnf }).fuelLvl, 0 ≤ x ∧ x ≤ F0) := by
      intro s1 h1w0 h1w1 h1f0 h1fF lt
      have hw2a : 0 ≤ min (s1.w + computeWearRate rc cfg s1.compound * wearMult) 1 :=
        le_min (add_nonneg h1w0 (hrate _)) zero_le_one
      have hw2b : min (s1.w + computeWearRate rc cfg s1.compound * wearMult) 1 ≤ 1 :=
        min_le_right _ _
      have hf2a : 0 ≤ max (s1.fuel - setup.engineering.get_fuel_consumption_rate s1.mode
          rc.track.fuel_usage * fuelMult) 0 := le_max_right _ _
      have hf2b : max (s1.fuel - setup.engineering.get_fuel_consumption_rate s1.mode
          rc.track.fuel_usage * fuelMult) 0 ≤ F0 :=
        max_le (le_trans (sub_le_self _ (hburn _)) h1fF) hF0
      split_ifs with hdnf
      · constructor <;> intro x hx <;> rw [List.eq_of_mem_replicate hx]
        · exact ⟨le_refl 0, zero_le_one⟩
        · exact ⟨le_refl 0, hF0⟩
      · have hrec := ih (lap + 1)
          { s1 with
            w := min (s1.w + computeWearRate rc cfg s1.compound * wearMult) 1
            fuel := max (s1.fuel - setup.engineering.get_fuel_consumption_rate s1.mode
              rc.track.fuel_usage * fuelMult) 0
            total := s1.total + lt }
          hw2a hw2b hf2a hf2b
        constructor <;> intro x hx
        · rcases List.mem_cons.mp hx with h | h
          · exact h ▸ ⟨hw2a, hw2b⟩
          · exact hrec.1 x h
        · rcases List.mem_cons.mp hx with h | h
          · exact h ▸ ⟨hf2a, hf2b⟩
          · exact hrec.2 x h
    by_cases hpit : ((lap : ℤ) + 1 = s.nextPit)
    · simp only [runLaps]
      rw [if_pos hpit]
      exact step (pitUpdate strat rc.track.pit_loss_time s) (le_refl 0) zero_le_one hf0 hfF _
    · simp only [runLaps]
      rw [if_neg hpit]
      exact step s hw0 hw1 hf0 hfF _

/-- C7: in every recorded player run, tire wear lies in `[0,1]` and fuel in
`[0, starting_fuel]` at every lap: each committed lap advances wear by the
compound rate × track stress × temperature factor × run wear multiplier
clamped at 1, and decreases fuel by the burn term clamped at 0, under the
preconditions that the initial wear is in `[0,1]`, the temperature factor and
the other wear/burn factors are non-negative. -/
theorem run_telemetry_within_bounds (rc : RaceConditions) (setup : CarSetup)
    (cfg : SimulationConfig) (strat : Strategy) (dnfDraw wearMult fuelMult : ℚ)
    (noise : ℕ → ℝ) (safetyCars : ℕ → Bool)
    (hiw0 : 0 ≤ setup.initial_tire_wear) (hiw1 : setup.initial_tire_wear ≤ 1)
    (hsf : 0 ≤ strat.starting_fuel)
    (hwm : 0 ≤ wearMult) (hfm : 0 ≤ fuelMult)
    (hts : 0 ≤ rc.track.tire_stress)
    (htemp : 0 ≤ 1 + (15/1000) * (rc.track_temp - 25))
    (hprops : ∀ c : TireCompound, 0 ≤ (cfg.tireProperties c).2.1)
    (hflow : 0 ≤ setup.engineering.fuel_flow_rate_kg_per_hour)
    (hfu : 0 ≤ rc.track.fuel_usage) :
    (∀ x ∈ (simulateSingleRun rc setup cfg strat dnfDraw wearMult fuelMult noise
      safetyCars).tireWear, 0 ≤ x ∧ x ≤ 1) ∧
    (∀ x ∈ (simulateSingleRun rc setup cfg strat dnfDraw wearMult fuelMult noise
      safetyCars).fuelLvl, 0 ≤ x ∧ x ≤ strat.starting_fuel) := by
  have hrate : ∀ c : TireCompound, 0 ≤ computeWearRate rc cfg c * wearMult := by
    intro c
    unfold computeWearRate
    exact mul_nonneg (mul_nonneg (mul_nonneg (hprops c) hts) htemp) hwm
  have hburn : ∀ m : EngineMode,
      0 ≤ setup.engineering.get_fuel_consumption_rate m rc.track.fuel_usage * fuelMult := by
    intro m
    unfold CarEngineering.get_fuel_consumption_rate
    have hv := (EngineMode.value_pos m).le
    have h1 : (0 : ℚ) ≤ setup.engineering.fuel_flow_rate_kg_per_hour / 60 * (15/10) / 60 := by
      positivity
    exact mul_nonneg (mul_nonneg (mul_nonneg h1 hv) hfu) hfm
  have hcore := runLaps_telemetry_bounds rc setup cfg strat wearMult fuelMult noise safetyCars
    strat.starting_fuel hrate hburn hsf rc.race_laps 0 (initRunAcc setup strat)
    hiw0 hiw1 hsf (le_refl _)
  simp only [simulateSingleRun]
  split_ifs with hrel hdnf
  · constructor <;> intro x hx <;> rw [List.eq_of_mem_replicate hx]
    · exact ⟨le_refl 0, zero_le_one⟩
    · exact ⟨le_refl 0, hsf⟩
  · exact hcore
  · exact hcore

/-- Witness for C7 at a concrete one-lap scenario. -/
theorem run_telemetry_within_bounds_witness :
    (∀ x ∈ (simulateSingleRun rcW setupW cfgW stratW (9/10) 1 1 (fun _ => 0)
      (fun _ => false)).tireWear, 0 ≤ x ∧ x ≤ 1) ∧
    (∀ x ∈ (simulateSingleRun rcW setupW cfgW stratW (9/10) 1 1 (fun _ => 0)
      (fun _ => false)).fuelLvl, 0 ≤ x ∧ x ≤ stratW.starting_fuel) :=
  run_telemetry_within_bounds rcW setupW cfgW stratW (9/10) 1 1 (fun _ => 0) (fun _ => false)
    (by norm_num [setupW, applyCarSetup]) (by norm_num [setupW, applyCarSetup])
    (by norm_num [stratW]) (by norm_num) (by norm_num)
    (by norm_num [rcW, trackW]) (by norm_num [rcW])
    (by intro c; cases c <;> norm_num [cfgW])
    (by norm_num [setupW, applyCarSetup]) (by norm_num [rcW, trackW])

/-! ## C10 — all-DNF ensembles at the statistics/utility interface -/

theorem validTimes_nil_of_all_dnf (d : SimResultsData)
    (hall : ∀ f ∈ d.dnfFlags, f = true) : validTimes d = [] := by
  unfold validTimes
  rw [List.filterMap_eq_nil_iff]
  intro tf hmem
  have hf := hall tf.2 (List.of_mem_zip hmem).2
  simp [hf]

theorem validTimes_ne_nil_of_finisher (d : SimResultsData) (j : ℕ)
    (hj1 : j < d.totalTimes.length) (hj2 : j < d.dnfFlags.length)
    (hflag : d.dnfFlags.getD j true = false) : validTimes d ≠ [] := by
  have hjz : j < (d.totalTimes.zip d.dnfFlags).length := by
    rw [List.length_zip]; omega
  have hpair : (d.totalTimes.zip d.dnfFlags).get ⟨j, hjz⟩ =
      (d.totalTimes.getD j 0, d.dnfFlags.getD j true) := by
    rw [List.get_eq_getElem, List.getElem_zip, List.getD_eq_getElem _ _ hj1,
      List.getD_eq_getElem _ _ hj2]
  have hmem : (d.totalTimes.getD j 0, d.dnfFlags.getD j true) ∈
      d.totalTimes.zip d.dnfFlags := hpair ▸ List.get_mem _ j hjz
  have : d.totalTimes.getD j 0 ∈ validTimes d := by
    unfold validTimes
    exact List.mem_filterMap.mpr ⟨_, hmem, by simp only [hflag]; rfl⟩
  exact List.ne_nil_of_mem this

/-- C10: on an ensemble whose every run is flagged DNF, `get_statistics`
returns exactly the four entries `mean_time = ∞`, `win_probability = 0`,
`podium_probability = 0`, `dnf_probability = 1`, and `compute_utility` raises
`KeyError` on the absent `std_time`; with at least one finisher,
`compute_utility` returns a value without raising. -/
theorem allDnf_statistics_and_utility (d : SimResultsData) (risk : ℝ) :
    ((∀ f ∈ d.dnfFlags, f = true) →
      getStatistics d = [("mean_time", .infty), ("win_probability", .q 0),
        ("podium_probability", .q 0), ("dnf_probability", .q 1)] ∧
      computeUtility d risk = .error "std_time") ∧
    (∀ j, j < d.totalTimes.length → j < d.dnfFlags.length →
      d.dnfFlags.getD j true = false → ∃ v, computeUtility d risk = .ok v) := by
  constructor
  · intro hall
    have hv : validTimes d = [] := validTimes_nil_of_all_dnf d hall
    have hstats : getStatistics d = [("mean_time", .infty), ("win_probability", .q 0),
        ("podium_probability", .q 0), ("dnf_probability", .q 1)] := by
      simp [getStatistics, hv]
    refine ⟨hstats, ?_⟩
    simp only [computeUtility]
    rw [hstats]
    rfl
  · intro j hj1 hj2 hflag
    have hne : ¬((validTimes d).length = 0) := fun h =>
      validTimes_ne_nil_of_finisher d j hj1 hj2 hflag (List.length_eq_zero.mp h)
    simp only [computeUtility, getStatistics]
    rw [if_neg hne]
    exact ⟨_, rfl⟩

/-- Witness for C10: the all-DNF two-run ensemble yields the four-key summary
and a `std_time` KeyError; the mixed ensemble yields a utility value. -/
theorem allDnf_statistics_and_utility_witness :
    (getStatistics dAllDnf = [("mean_time", .infty), ("win_probability", .q 0),
      ("podium_probability", .q 0), ("dnf_probability", .q 1)] ∧
      computeUtility dAllDnf (1/2) = .error "std_time") ∧
    (∃ v, computeUtility dMixed (1/2) = .ok v) :=
  ⟨(allDnf_statistics_and_utility dAllDnf (1/2)).1 (by decide),
   (allDnf_statistics_and_utility dMixed (1/2)).2 0 (by simp [dMixed]) (by simp [dMixed])
     (by rfl)⟩

/-! ## C4 — statistics populations (non-DNF vs all runs) -/

/-- C4 counterexample: the tail-risk statistic `cvar_10` is *not* computed
over the non-DNF runs only — with flags and all finisher times held fixed,
changing only the recorded total of a DNF run changes `cvar_10`. -/
theorem cvar_uses_dnf_runs_counterexample :
    d4.dnfFlags = d4'.dnfFlags ∧ validTimes d4 = validTimes d4' ∧
    (getStatistics d4).lookup "cvar_10" ≠ (getStatistics d4').lookup "cvar_10" := by
  refine ⟨rfl, rfl, ?_⟩
  have hne4 : ¬(validTimes d4).length = 0 := by decide
  have hne4' : ¬(validTimes d4').length = 0 := by decide
  have h1 : (getStatistics d4).lookup "cvar_10" =
      some (.q (npMean (cvarTailSlice (1/10) d4.totalTimes))) := by
    simp only [getStatistics]
    rw [if_neg hne4]
    rfl
  have h2 : (getStatistics d4').lookup "cvar_10" =
      some (.q (npMean (cvarTailSlice (1/10) d4'.totalTimes))) := by
    simp only [getStatistics]
    rw [if_neg hne4']
    rfl
  have hv1 : npMean (cvarTailSlice (1/10) d4.totalTimes) = 1000000000 := by
    norm_num [cvarTailSlice, npSort, npMean, d4, List.insertionSort, List.orderedInsert]
  have hv2 : npMean (cvarTailSlice (1/10) d4'.totalTimes) = 200 := by
    norm_num [cvarTailSlice, npSort, npMean, d4', List.insertionSort, List.orderedInsert]
  rw [h1, h2, hv1, hv2]
  intro hx
  simp only [Option.some.injEq, StatVal.q.injEq] at hx
  norm_num at hx

/-- C4 (amended): all listed time/position statistics (mean/median/std/min/max
time, mean/median position, win/podium/top-5/top-10 probabilities, time
percentiles) are computed over the non-DNF runs only, and `dnf_probability`
over all runs' flags: they are unchanged whenever the flags, the finishers'
positions (`validPositions`) and the finishers' times (`validTimes`) coincide
— the DNF runs' recorded totals *and positions* may differ arbitrarily.  The
tail statistics `cvar_5`/`cvar_10`, by contrast, are computed over **all**
runs' total times (DNF sentinels included): they depend only on the raw
total-time vector. -/
theorem statistics_populations (d d' : SimResultsData)
    (hf : d.dnfFlags = d'.dnfFlags) (hvp : validPositions d = validPositions d')
    (hv : validTimes d = validTimes d')
    (e e' : SimResultsData) (ht : e.totalTimes = e'.totalTimes)
    (he : ¬(validTimes e).length = 0) (he' : ¬(validTimes e').length = 0) :
    (timeStatKeys.map fun k => (getStatistics d).lookup k) =
      (timeStatKeys.map fun k => (getStatistics d').lookup k) ∧
    (getStatistics e).lookup "cvar_10" = (getStatistics e').lookup "cvar_10" ∧
    (getStatistics e).lookup "cvar_5" = (getStatistics e').lookup "cvar_5" := by
  refine ⟨?_, ?_, ?_⟩
  · by_cases h0 : (validTimes d).length = 0
    · have h0' : (validTimes d').length = 0 := hv ▸ h0
      simp only [getStatistics]
      rw [if_pos h0, if_pos h0']
    · have h0' : ¬(validTimes d').length = 0 := hv ▸ h0
      simp only [getStatistics]
      rw [if_neg h0, if_neg h0', hv, hvp, hf]
      rfl
  · simp only [getStatistics]
    rw [if_neg he, if_neg he', ht]
    rfl
  · simp only [getStatistics]
    rw [if_neg he, if_neg he', ht]
    rfl

/-- Witness for C4 at the concrete ten-run ensembles: `d4p` differs from `d4`
in the DNF run's recorded total *and* recorded position. -/
theorem statistics_populations_witness :
    (timeStatKeys.map fun k => (getStatistics d4).lookup k) =
      (timeStatKeys.map fun k => (getStatistics d4p).lookup k) ∧
    (getStatistics d4).lookup "cvar_10" = (getStatistics d4).lookup "cvar_10" ∧
    (getStatistics d4).lookup "cvar_5" = (getStatistics d4).lookup "cvar_5" :=
  statistics_populations d4 d4p rfl rfl rfl d4 d4 rfl (by decide) (by decide)

/-! ## C1 — per-run hazard model (no per-lap puncture check) -/

/-- The player lap loop never reads the puncture configuration: replacing
`base_puncture_prob` and `puncture_wear_multiplier` leaves every run
unchanged. -/
theorem runLaps_puncture_cfg_invariant (rc : RaceConditions) (setup : CarSetup)
    (cfg : SimulationConfig) (strat : Strategy) (wearMult fuelMult : ℚ) (noise : ℕ → ℝ)
    (safetyCars : ℕ → Bool) (p q : ℚ) :
    ∀ (rem lap : ℕ) (s : RunAcc),
      runLaps rc setup { cfg with base_puncture_prob := p, puncture_wear_multiplier := q }
        strat wearMult fuelMult noise safetyCars rem lap s =
      runLaps rc setup cfg strat wearMult fuelMult noise safetyCars rem lap s := by
  intro rem
  induction rem with
  | zero => intro lap s; rfl
  | succ rem ih =>
    intro lap s
    have hclt : ∀ (w f : ℚ) (c : TireCompound) (m : EngineMode) (n : ℝ),
        computeLapTime rc setup
          { cfg with base_puncture_prob := p, puncture_wear_multiplier := q } w f c m n =
        computeLapTime rc setup cfg w f c m n := fun _ _ _ _ _ => rfl
    have hcwr : ∀ c : TireCompound,
        computeWearRate rc { cfg with base_puncture_prob := p, puncture_wear_multiplier := q }
          c = computeWearRate rc cfg c := fun _ => rfl
    simp only [runLaps, hclt, hcwr, ih]

/-- C1 (amended): the only player-run hazards are a single reliability DNF
check before any lap and fuel depletion; there is no per-lap puncture check —
the run result does not depend on `base_puncture_prob` or
`puncture_wear_multiplier` — and a DNF records the `1e9` sentinel total.
Hazards never propagate as exceptions (the run function is total). -/
theorem single_run_hazard_model (rc : RaceConditions) (setup : CarSetup)
    (cfg : SimulationConfig) (strat : Strategy) (dnfDraw wearMult fuelMult : ℚ)
    (noise : ℕ → ℝ) (safetyCars : ℕ → Bool) :
    (∀ p q : ℚ,
      simulateSingleRun rc setup
        { cfg with base_puncture_prob := p, puncture_wear_multiplier := q } strat dnfDraw
        wearMult fuelMult noise safetyCars =
      simulateSingleRun rc setup cfg strat dnfDraw wearMult fuelMult noise safetyCars) ∧
    ((simulateSingleRun rc setup cfg strat dnfDraw wearMult fuelMult noise
        safetyCars).dnf = true →
      (simulateSingleRun rc setup cfg strat dnfDraw wearMult fuelMult noise
        safetyCars).total = ((dnfSentinel : ℚ) : ℝ)) := by
  constructor
  · intro p q
    simp only [simulateSingleRun]
    rw [runLaps_puncture_cfg_invariant]
  · intro hdnf
    simp only [simulateSingleRun] at hdnf ⊢
    split_ifs at hdnf ⊢ with h1 h2
    · rfl
    · rfl
    · exact absurd hdnf h2

/-- C1 counterexample: at wear 0 the claimed puncture probability is
`base_puncture_prob > 0`, so a zero hazard draw must DNF the run under the
spec's model; the source's run ignores the hazard draw entirely and
finishes. -/
theorem no_per_lap_puncture_counterexample :
    (simulateSingleRun rcW setupW cfgW stratW (9/10) 1 1 (fun _ => 0)
      (fun _ => false)).dnf = false ∧
    (simulateSingleRunSpec rcW setupW cfgW stratW (9/10) 1 1 (fun _ => 0)
      (fun _ => false) (fun _ => 0)).dnf = true := by
  have hrel := reliability_draw_nine_tenths_safe setupW.engineering rcW.race_laps
  constructor
  · simp only [simulateSingleRun]
    rw [if_neg hrel]
    norm_num [rcW, trackW, runLaps, initRunAcc, stratW, cfgW, setupW, applyCarSetup,
      pitUpdate, CarEngineering.get_fuel_consumption_rate, EngineMode.value]
  · simp only [simulateSingleRunSpec]
    rw [if_neg hrel]
    norm_num [rcW, trackW, runLapsSpec, initRunAcc, stratW, cfgW, setupW, applyCarSetup,
      pitUpdate]

/-- Witness for C1 at a fuel-depletion DNF: the thirsty car empties its tank
on lap one of two, the run is flagged DNF, and by the hazard-model theorem its
total is the sentinel. -/
theorem single_run_hazard_model_witness :
    (simulateSingleRun rcFuel setupFuel cfgW stratW (9/10) 1 1 (fun _ => 0)
      (fun _ => false)).dnf = true ∧
    (simulateSingleRun rcFuel setupFuel cfgW stratW (9/10) 1 1 (fun _ => 0)
      (fun _ => false)).total = ((dnfSentinel : ℚ) : ℝ) := by
  have hrel := reliability_draw_nine_tenths_safe setupFuel.engineering rcFuel.race_laps
  have hdnf : (simulateSingleRun rcFuel setupFuel cfgW stratW (9/10) 1 1 (fun _ => 0)
      (fun _ => false)).dnf = true := by
    simp only [simulateSingleRun]
    rw [if_neg hrel]
    norm_num [rcFuel, trackW, runLaps, initRunAcc, stratW, cfgW, setupFuel, applyCarSetup,
      pitUpdate, CarEngineering.get_fuel_consumption_rate, EngineMode.value]
  exact ⟨hdnf, (single_run_hazard_model rcFuel setupFuel cfgW stratW (9/10) 1 1 (fun _ => 0)
    (fun _ => false)).2 hdnf⟩

/-! ## C3 — lap-time formula and floor -/

/-- C3 counterexample: the source lap time has no
`k_downforce · (1 - downforce) · 0.5` aero term — at wear 0, fuel 100, medium
compound, normal mode, zero noise, the source and the spec's formula disagree
(by `0.3 s` at downforce level `1/2`). -/
theorem lap_time_aero_term_counterexample :
    computeLapTime rcW setupW cfgW 0 100 .medium .normal 0 ≠
      computeLapTimeSpec rcW setupW cfgW 0 100 .medium .normal 0 := by
  have hoff : ourCarPerformanceOffset setupW trackW = -(4/5) := by
    norm_num [ourCarPerformanceOffset, CarSetup.get_performance_offset,
      CarEngineering.estimate_lap_time_delta, CarEngineering.get_corner_speed_multiplier,
      CarEngineering.get_straight_speed_multiplier, CarEngineering.calculate_total_mass_kg,
      setupW, applyCarSetup, trackW, min_def, max_def]
  have e1 : computeLapTime rcW setupW cfgW 0 100 .medium .normal 0 = 461/5 := by
    simp only [computeLapTime, pow15_zero]
    rw [show rcW.track.base_lap_time = (90 : ℚ) from rfl,
      show ourCarPerformanceOffset setupW rcW.track = -(4/5) from hoff,
      show cfgW.k_wear_lap_time = (12 : ℚ) from rfl,
      show cfgW.k_fuel_lap_time = (3/100 : ℚ) from rfl,
      show (cfgW.tireProperties .medium).1 = (0 : ℚ) from rfl,
      show EngineMode.normal.value = (1 : ℚ) from rfl]
    push_cast
    rw [max_eq_left (by norm_num)]
    norm_num
  have e2 : computeLapTimeSpec rcW setupW cfgW 0 100 .medium .normal 0 = 185/2 := by
    simp only [computeLapTimeSpec, pow15_zero]
    rw [show rcW.track.base_lap_time = (90 : ℚ) from rfl,
      show ourCarPerformanceOffset setupW rcW.track = -(4/5) from hoff,
      show cfgW.k_wear_lap_time = (12 : ℚ) from rfl,
      show cfgW.k_fuel_lap_time = (3/100 : ℚ) from rfl,
      show cfgW.k_downforce_lap_time = (12/10 : ℚ) from rfl,
      show setupW.downforce_level = (1/2 : ℚ) from rfl,
      show (cfgW.tireProperties .medium).1 = (0 : ℚ) from rfl,
      show EngineMode.normal.value = (1 : ℚ) from rfl]
    push_cast
    rw [max_eq_left (by norm_num)]
    norm_num
  rw [e1, e2]
  norm_num

/-- C3 (amended): every player lap time equals
`(base + k_wear·W^1.5 + k_fuel·F + compound_offset) / engine_factor + noise`
— with **no** aero term, `k_downforce_lap_time` being unused — where
`base = track.base_lap_time + car performance offset`, floored at
`base * 0.90`; in particular no lap, for any wear or noise, is ever recorded
below that floor. -/
theorem lap_time_formula_and_floor (rc : RaceConditions) (setup : CarSetup)
    (cfg : SimulationConfig) (wear fuel : ℚ) (compound : TireCompound)
    (mode : EngineMode) (noise : ℝ) :
    computeLapTime rc setup cfg wear fuel compound mode noise =
      max ((((rc.track.base_lap_time + ourCarPerformanceOffset setup rc.track : ℚ) : ℝ) +
        (cfg.k_wear_lap_time : ℝ) * pow15 wear + ((cfg.k_fuel_lap_time * fuel : ℚ) : ℝ) +
        (((cfg.tireProperties compound).1 : ℚ) : ℝ)) / ((mode.value : ℚ) : ℝ) + noise)
        (((rc.track.base_lap_time + ourCarPerformanceOffset setup rc.track : ℚ) : ℝ) *
          (9/10)) ∧
    (((rc.track.base_lap_time + ourCarPerformanceOffset setup rc.track : ℚ) : ℝ) * (9/10)) ≤
      computeLapTime rc setup cfg wear fuel compound mode noise :=
  ⟨rfl, le_max_right _ _⟩

/-! ## C8 — safety-car monotonicity -/

/-- Enlarging the set of safety-car laps cannot decrease a run's accumulated
time, provided every non-safety-car lap time is at most the safety-car lap
time `base_lap_time × safety_car_factor` (state evolution — wear, fuel, DNF —
is identical under both indicator sets; only the committed lap times and hence
the total differ). -/
theorem runLaps_sc_mono (rc : RaceConditions) (setup : CarSetup) (cfg : SimulationConfig)
    (strat : Strategy) (wearMult fuelMult : ℚ) (noise : ℕ → ℝ) (sc sc' : ℕ → Bool)
    (F0 : ℚ)
    (hsub : ∀ i, sc i = true → sc' i = true)
    (hrate : ∀ c : TireCompound, 0 ≤ computeWearRate rc cfg c * wearMult)
    (hburn : ∀ m : EngineMode,
      0 ≤ setup.engineering.get_fuel_consumption_rate m rc.track.fuel_usage * fuelMult)
    (hbound : ∀ (i : ℕ) (w f : ℚ) (c : TireCompound) (m : EngineMode),
      0 ≤ w → w ≤ 1 → 0 ≤ f → f ≤ F0 →
      computeLapTime rc setup cfg w f c m (noise i) ≤
        (rc.track.base_lap_time : ℝ) * (cfg.safety_car_lap_time_factor : ℝ)) :
    ∀ (rem lap : ℕ) (w fuel : ℚ) (si : ℕ) (cp : TireCompound) (md : EngineMode) (np : ℤ)
      (tL tR : ℝ), tL ≤ tR → 0 ≤ w → w ≤ 1 → 0 ≤ fuel → fuel ≤ F0 →
      ((runLaps rc setup cfg strat wearMult fuelMult noise sc rem lap
          ⟨w, fuel, si, cp, md, np, tL⟩).dnf =
        (runLaps rc setup cfg strat wearMult fuelMult noise sc' rem lap
          ⟨w, fuel, si, cp, md, np, tR⟩).dnf) ∧
      ((runLaps rc setup cfg strat wearMult fuelMult noise sc rem lap
          ⟨w, fuel, si, cp, md, np, tL⟩).total ≤
        (runLaps rc setup cfg strat wearMult fuelMult noise sc' rem lap
          ⟨w, fuel, si, cp, md, np, tR⟩).total) := by
  intro rem
  induction rem with
  | zero =>
    intro lap w fuel si cp md np tL tR htt _ _ _ _
    exact ⟨rfl, htt⟩
  | succ rem ih =>
    intro lap w fuel si cp md np tL tR htt hw0 hw1 hf0 hfF
    by_cases hpit : ((lap : ℤ) + 1 = np)
    · -- pit-stop lap: wear resets, stint advances, both totals gain the pit loss
      have hlt : (if sc lap then
            (rc.track.base_lap_time : ℝ) * (cfg.safety_car_lap_time_factor : ℝ)
          else computeLapTime rc setup cfg 0 fuel (strat.tire_compounds.getD (si + 1) cp)
            (strat.engine_modes.getD (si + 1) md) (noise lap)) ≤
          (if sc' lap then
            (rc.track.base_lap_time : ℝ) * (cfg.safety_car_lap_time_factor : ℝ)
          else computeLapTime rc setup cfg 0 fuel (strat.tire_compounds.getD (si + 1) cp)
            (strat.engine_modes.getD (si + 1) md) (noise lap)) := by
        by_cases hsc : sc lap = true
        · rw [if_pos hsc, if_pos (hsub lap hsc)]
        · by_cases hsc' : sc' lap = true
          · rw [if_neg hsc, if_pos hsc']
            exact hbound lap 0 fuel _ _ (le_refl 0) zero_le_one hf0 hfF
          · rw [if_neg hsc, if_neg hsc']
      simp only [runLaps, pitUpdate]
      rw [if_pos hpit, if_pos hpit]
      dsimp only
      by_cases hdnf : (max (fuel - setup.engineering.get_fuel_consumption_rate
          (strat.engine_modes.getD (si + 1) md) rc.track.fuel_usage * fuelMult) 0 ≤ 0 ∧
          lap < rc.race_laps - 1)
      · rw [if_pos hdnf, if_pos hdnf]
        exact ⟨rfl, add_le_add (add_le_add_right htt _) hlt⟩
      · rw [if_neg hdnf, if_neg hdnf]
        have hrec := ih (lap + 1)
          (min (0 + computeWearRate rc cfg (strat.tire_compounds.getD (si + 1) cp) *
            wearMult) 1)
          (max (fuel - setup.engineering.get_fuel_consumption_rate
            (strat.engine_modes.getD (si + 1) md) rc.track.fuel_usage * fuelMult) 0)
          (si + 1) (strat.tire_compounds.getD (si + 1) cp)
          (strat.engine_modes.getD (si + 1) md) (strat.pit_laps.getD (si + 1) 9999)
          (tL + (rc.track.pit_loss_time : ℝ) + (if sc lap then
            (rc.track.base_lap_time : ℝ) * (cfg.safety_car_lap_time_factor : ℝ)
          else computeLapTime rc setup cfg 0 fuel (strat.tire_compounds.getD (si + 1) cp)
            (strat.engine_modes.getD (si + 1) md) (noise lap)))
          (tR + (rc.track.pit_loss_time : ℝ) + (if sc' lap then
            (rc.track.base_lap_time : ℝ) * (cfg.safety_car_lap_time_factor : ℝ)
          else computeLapTime rc setup cfg 0 fuel (strat.tire_compounds.getD (si + 1) cp)
            (strat.engine_modes.getD (si + 1) md) (noise lap)))
          (add_le_add (add_le_add_right htt _) hlt)
          (le_min (add_nonneg (le_refl 0) (hrate _)) zero_le_one) (min_le_right _ _)
          (le_max_right _ _)
          (max_le (le_trans (sub_le_self _ (hburn _)) hfF) (le_trans hf0 hfF))
        exact ⟨hrec.1, hrec.2⟩
    · -- ordinary lap
      have hlt : (if sc lap then
            (rc.track.base_lap_time : ℝ) * (cfg.safety_car_lap_time_factor : ℝ)
          else computeLapTime rc setup cfg w fuel cp md (noise lap)) ≤
          (if sc' lap then
            (rc.track.base_lap_time : ℝ) * (cfg.safety_car_lap_time_factor : ℝ)
          else computeLapTime rc setup cfg w fuel cp md (noise lap)) := by
        by_cases hsc : sc lap = true
        · rw [if_pos hsc, if_pos (hsub lap hsc)]
        · by_cases hsc' : sc' lap = true
          · rw [if_neg hsc, if_pos hsc']
            exact hbound lap w fuel _ _ hw0 hw1 hf0 hfF
          · rw [if_neg hsc, if_neg hsc']
      simp only [runLaps]
      rw [if_neg hpit, if_neg hpit]
      dsimp only
      by_cases hdnf : (max (fuel - setup.engineering.get_fuel_consumption_rate md
          rc.track.fuel_usage * fuelMult) 0 ≤ 0 ∧ lap < rc.race_laps - 1)
      · rw [if_pos hdnf, if_pos hdnf]
        exact ⟨rfl, add_le_add htt hlt⟩
      · rw [if_neg hdnf, if_neg hdnf]
        have hrec := ih (lap + 1)
          (min (w + computeWearRate rc cfg cp * wearMult) 1)
          (max (fuel - setup.engineering.get_fuel_consumption_rate md
            rc.track.fuel_usage * fuelMult) 0)
          si cp md np
          (tL + (if sc lap then
            (rc.track.base_lap_time : ℝ) * (cfg.safety_car_lap_time_factor : ℝ)
          else computeLapTime rc setup cfg w fuel cp md (noise lap)))
          (tR + (if sc' lap then
            (rc.track.base_lap_time : ℝ) * (cfg.safety_car_lap_time_factor : ℝ)
          else computeLapTime rc setup cfg w fuel cp md (noise lap)))
          (add_le_add htt hlt)
          (le_min (add_nonneg hw0 (hrate _)) zero_le_one) (min_le_right _ _)
          (le_max_right _ _)
          (max_le (le_trans (sub_le_self _ (hburn _)) hfF) (le_trans hf0 hfF))
        exact ⟨hrec.1, hrec.2⟩

/-- Safety-car monotonicity through the reliability wrapper: the run's
recorded total (sentinel included) is monotone in the safety-car set. -/
theorem simulateSingleRun_sc_mono (rc : RaceConditions) (setup : CarSetup)
    (cfg : SimulationConfig) (strat : Strategy) (dnfDraw wearMult fuelMult : ℚ)
    (noise : ℕ → ℝ) (sc sc' : ℕ → Bool)
    (hsub : ∀ i, sc i = true → sc' i = true)
    (hiw0 : 0 ≤ setup.initial_tire_wear) (hiw1 : setup.initial_tire_wear ≤ 1)
    (hsf : 0 ≤ strat.starting_fuel) (hwm : 0 ≤ wearMult) (hfm : 0 ≤ fuelMult)
    (hts : 0 ≤ rc.track.tire_stress)
    (htemp : 0 ≤ 1 + (15/1000) * (rc.track_temp - 25))
    (hprops : ∀ c : TireCompound, 0 ≤ (cfg.tireProperties c).2.1)
    (hflow : 0 ≤ setup.engineering.fuel_flow_rate_kg_per_hour)
    (hfu : 0 ≤ rc.track.fuel_usage)
    (hbound : ∀ (i : ℕ) (w f : ℚ) (c : TireCompound) (m : EngineMode),
      0 ≤ w → w ≤ 1 → 0 ≤ f → f ≤ strat.starting_fuel →
      computeLapTime rc setup cfg w f c m (noise i) ≤
        (rc.track.base_lap_time : ℝ) * (cfg.safety_car_lap_time_factor : ℝ)) :
    (simulateSingleRun rc setup cfg strat dnfDraw wearMult fuelMult noise sc).total ≤
      (simulateSingleRun rc setup cfg strat dnfDraw wearMult fuelMult noise sc').total := by
  have hrate : ∀ c : TireCompound, 0 ≤ computeWearRate rc cfg c * wearMult := by
    intro c
    unfold computeWearRate
    exact mul_nonneg (mul_nonneg (mul_nonneg (hprops c) hts) htemp) hwm
  have hburn : ∀ m : EngineMode,
      0 ≤ setup.engineering.get_fuel_consumption_rate m rc.track.fuel_usage * fuelMult := by
    intro m
    unfold CarEngineering.get_fuel_consumption_rate
    have hv := (EngineMode.value_pos m).le
    have h1 : (0 : ℚ) ≤ setup.engineering.fuel_flow_rate_kg_per_hour / 60 * (15/10) / 60 := by
      positivity
    exact mul_nonneg (mul_nonneg (mul_nonneg h1 hv) hfu) hfm
  have hmono : ((runLaps rc setup cfg strat wearMult fuelMult noise sc rc.race_laps 0
        (initRunAcc setup strat)).dnf =
      (runLaps rc setup cfg strat wearMult fuelMult noise sc' rc.race_laps 0
        (initRunAcc setup strat)).dnf) ∧
      ((runLaps rc setup cfg strat wearMult fuelMult noise sc rc.race_laps 0
        (initRunAcc setup strat)).total ≤
      (runLaps rc setup cfg strat wearMult fuelMult noise sc' rc.race_laps 0
        (initRunAcc setup strat)).total) :=
    runLaps_sc_mono rc setup cfg strat wearMult fuelMult noise sc sc' strat.starting_fuel
      hsub hrate hburn hbound rc.race_laps 0 setup.initial_tire_wear strat.starting_fuel 0
      (strat.tire_compounds.getD 0 .medium) (strat.engine_modes.getD 0 .normal)
      (strat.pit_laps.getD 0 9999) 0 0 (le_refl 0) hiw0 hiw1 hsf (le_refl _)
  simp only [simulateSingleRun]
  by_cases hrel : ((dnfDraw : ℝ) <
      setup.engineering.get_reliability_dnf_probability rc.race_laps)
  · rw [if_pos hrel, if_pos hrel]
  · rw [if_neg hrel, if_neg hrel]
    by_cases hdnf : (runLaps rc setup cfg strat wearMult fuelMult noise sc rc.race_laps 0
        (initRunAcc setup strat)).dnf = true
    · rw [if_pos hdnf, if_pos (hmono.1 ▸ hdnf)]
    · rw [if_neg hdnf, if_neg (hmono.1 ▸ hdnf)]
      exact hmono.2

/-- C8 (amended): with all non-safety-car randomness held fixed, enlarging the
per-run safety-car lap sets does not decrease the ensemble's mean total time,
**provided** every non-safety-car lap time (over the reachable wear/fuel
range) is at most the safety-car lap time `base_lap_time × safety_car_factor`.
(The proviso is necessary: an unbounded positive noise draw can push a normal
lap above the safety-car time, and replacing it then lowers the mean — see the
counterexample.) -/
theorem safety_car_mean_total_monotone (rc : RaceConditions) (setup : CarSetup)
    (cfg : SimulationConfig) (strat : Strategy) (draws : List RunDraws)
    (sc sc' : ℕ → ℕ → Bool)
    (hsub : ∀ r i, sc r i = true → sc' r i = true)
    (hiw0 : 0 ≤ setup.initial_tire_wear) (hiw1 : setup.initial_tire_wear ≤ 1)
    (hsf : 0 ≤ strat.starting_fuel)
    (hdm : ∀ d ∈ draws, 0 ≤ d.wearMult ∧ 0 ≤ d.fuelMult)
    (hts : 0 ≤ rc.track.tire_stress)
    (htemp : 0 ≤ 1 + (15/1000) * (rc.track_temp - 25))
    (hprops : ∀ c : TireCompound, 0 ≤ (cfg.tireProperties c).2.1)
    (hflow : 0 ≤ setup.engineering.fuel_flow_rate_kg_per_hour)
    (hfu : 0 ≤ rc.track.fuel_usage)
    (hbound : ∀ d ∈ draws, ∀ (i : ℕ) (w f : ℚ) (c : TireCompound) (m : EngineMode),
      0 ≤ w → w ≤ 1 → 0 ≤ f → f ≤ strat.starting_fuel →
      computeLapTime rc setup cfg w f c m (d.noise i) ≤
        (rc.track.base_lap_time : ℝ) * (cfg.safety_car_lap_time_factor : ℝ)) :
    ensembleMeanTotal rc setup cfg strat draws sc ≤
      ensembleMeanTotal rc setup cfg strat draws sc' := by
  unfold ensembleMeanTotal ensembleTotals
  have hsum : ((draws.enum.map fun rd =>
      (simulateSingleRun rc setup cfg strat rd.2.dnfDraw rd.2.wearMult rd.2.fuelMult
        rd.2.noise (sc rd.1)).total)).sum ≤
      ((draws.enum.map fun rd =>
      (simulateSingleRun rc setup cfg strat rd.2.dnfDraw rd.2.wearMult rd.2.fuelMult
        rd.2.noise (sc' rd.1)).total)).sum := by
    apply List.sum_le_sum
    intro rd hrd
    have hd : rd.2 ∈ draws := snd_mem_of_mem_enum hrd
    exact simulateSingleRun_sc_mono rc setup cfg strat rd.2.dnfDraw rd.2.wearMult
      rd.2.fuelMult rd.2.noise (sc rd.1) (sc' rd.1) (hsub rd.1) hiw0 hiw1 hsf
      (hdm rd.2 hd).1 (hdm rd.2 hd).2 hts htemp hprops hflow hfu (hbound rd.2 hd)
  rw [List.length_map, List.length_map]
  rcases Nat.eq_zero_or_pos draws.enum.length with h0 | hpos
  · rw [h0]
    simp
  · have hc : (0 : ℝ) < (draws.enum.length : ℝ) := by exact_mod_cast hpos
    exact (div_le_div_iff_of_pos_right hc).mpr hsum

theorem setupW_offset : ourCarPerformanceOffset setupW trackW = -(4/5) := by
  norm_num [ourCarPerformanceOffset, CarSetup.get_performance_offset,
    CarEngineering.estimate_lap_time_delta, CarEngineering.get_corner_speed_multiplier,
    CarEngineering.get_straight_speed_multiplier, CarEngineering.calculate_total_mass_kg,
    setupW, applyCarSetup, trackW, min_def, max_def]

/-- Every lap time of the witness scenario (zero noise, wear in `[0,1]`, fuel
at most 105) is below the 130.5 s safety-car lap time. -/
theorem witness_lap_time_bound (w f : ℚ) (c : TireCompound) (m : EngineMode)
    (hw0 : 0 ≤ w) (hw1 : w ≤ 1) (hf0 : 0 ≤ f) (hfF : f ≤ stratW.starting_fuel) :
    computeLapTime rcW setupW cfgW w f c m ((0 : ℝ)) ≤
      (rcW.track.base_lap_time : ℝ) * (cfgW.safety_car_lap_time_factor : ℝ) := by
  have hf105 : f ≤ 105 := by simpa [stratW] using hfF
  simp only [computeLapTime]
  rw [show rcW.track.base_lap_time = (90 : ℚ) from rfl,
    show ourCarPerformanceOffset setupW rcW.track = -(4/5) from setupW_offset,
    show cfgW.k_wear_lap_time = (12 : ℚ) from rfl,
    show cfgW.k_fuel_lap_time = (3/100 : ℚ) from rfl,
    show cfgW.safety_car_lap_time_factor = (145/100 : ℚ) from rfl]
  have hp1 : pow15 w ≤ 1 := pow15_le_one hw0 hw1
  have hp0 : 0 ≤ pow15 w := pow15_nonneg w
  have hfr : ((f : ℚ) : ℝ) ≤ 105 := by exact_mod_cast hf105
  have hfr0 : (0 : ℝ) ≤ ((f : ℚ) : ℝ) := by exact_mod_cast hf0
  have hoffr : (((cfgW.tireProperties c).1 : ℚ) : ℝ) ≤ 5 := by
    cases c <;> norm_num [cfgW]
  apply max_le
  · rw [add_zero]
    cases m <;>
      (simp only [EngineMode.value]
       rw [div_le_iff₀ (by norm_num)]
       push_cast at hoffr ⊢
       nlinarith [hp1, hp0, hfr, hfr0, hoffr])
  · push_cast
    norm_num

/-- Witness for C8: one run, one lap, zero noise; turning the safety car on
everywhere cannot lower the mean. -/
theorem safety_car_mean_total_monotone_witness :
    ensembleMeanTotal rcW setupW cfgW stratW [⟨9/10, 1, 1, fun _ => 0⟩]
      (fun _ _ => false) ≤
    ensembleMeanTotal rcW setupW cfgW stratW [⟨9/10, 1, 1, fun _ => 0⟩]
      (fun _ _ => true) := by
  apply safety_car_mean_total_monotone
  · exact fun _ _ _ => rfl
  · norm_num [setupW, applyCarSetup]
  · norm_num [setupW, applyCarSetup]
  · norm_num [stratW]
  · intro d hd
    have hdEq : d = ⟨9/10, 1, 1, fun _ => 0⟩ := by simpa using hd
    subst hdEq
    exact ⟨by norm_num, by norm_num⟩
  · norm_num [rcW, trackW]
  · norm_num [rcW]
  · intro c; cases c <;> norm_num [cfgW]
  · norm_num [setupW, applyCarSetup]
  · norm_num [rcW, trackW]
  · intro d hd i w f c m hw0 hw1 hf0 hfF
    have hdEq : d = ⟨9/10, 1, 1, fun _ => 0⟩ := by simpa using hd
    subst hdEq
    exact witness_lap_time_bound w f c m hw0 hw1 hf0 hfF

/-- C8 counterexample: with a large positive noise draw (1000 s) the normal
lap time exceeds the safety-car lap time, so enlarging the safety-car lap set
from the empty set (`fun _ _ => false`) to all laps (`fun _ _ => true`)
strictly *decreases* the ensemble's mean total time — the claimed
unconditional monotonicity fails. -/
theorem safety_car_can_lower_mean_counterexample :
    ensembleMeanTotal rcW setupW cfgW stratW [⟨9/10, 1, 1, fun _ => 1000⟩]
      (fun _ _ => true) <
    ensembleMeanTotal rcW setupW cfgW stratW [⟨9/10, 1, 1, fun _ => 1000⟩]
      (fun _ _ => false) := by
  have hrel := reliability_draw_nine_tenths_safe setupW.engineering rcW.race_laps
  have hA : (simulateSingleRun rcW setupW cfgW stratW (9/10) 1 1 (fun _ => (1000 : ℝ))
      (fun _ => true)).total = 261/2 := by
    simp only [simulateSingleRun]
    rw [if_neg hrel]
    norm_num [runLaps, initRunAcc, stratW, rcW, trackW, cfgW,
      CarEngineering.get_fuel_consumption_rate, EngineMode.value]
  have hB : (simulateSingleRun rcW setupW cfgW stratW (9/10) 1 1 (fun _ => (1000 : ℝ))
      (fun _ => false)).total = 21847/20 := by
    simp only [simulateSingleRun]
    rw [if_neg hrel]
    norm_num [runLaps, initRunAcc, computeLapTime, pow15_zero, stratW, rcW, trackW, cfgW,
      setupW, applyCarSetup, ourCarPerformanceOffset, CarSetup.get_performance_offset,
      CarEngineering.estimate_lap_time_delta, CarEngineering.get_corner_speed_multiplier,
      CarEngineering.get_straight_speed_multiplier, CarEngineering.calculate_total_mass_kg,
      CarEngineering.get_fuel_consumption_rate, EngineMode.value, min_def, max_def]
  unfold ensembleMeanTotal ensembleTotals
  norm_num [List.enum, List.enumFrom, hA, hB]

/-! ## C9 — competitor-field generation -/

/-- C9 counterexample: on a 20-lap race the one-stop pit window
`[max(20//3,15), min(2·20//3, 20-10)) = [15, 10)` is degenerate, `randint`
raises, and `CompetitorField` construction aborts — there is no re-draw or
fallback. -/
theorem competitor_field_short_race_aborts :
    mkCompetitorField rc20 cfgW rngHalf = .error "ValueError: low >= high" := by
  norm_num [mkCompetitorField, generateRealisticField, assignCompetitorStrategies,
    Rng.uniformList, Rng.nextList, Rng.uniform, Rng.next, Rng.randint,
    rngHalf, rc20, trackW, Bind.bind, Except.bind, List.zipWith, min_def, max_def]

theorem Rng.nextList_length (r : Rng) (n : ℕ) : (r.nextList n).1.length = n := by
  induction n generalizing r with
  | zero => rfl
  | succ n ih => simp [Rng.nextList, Rng.next, ih]

theorem Rng.uniformList_length (r : Rng) (a b : ℚ) (n : ℕ) :
    (r.uniformList a b n).1.length = n := by
  simp [Rng.uniformList, Rng.nextList_length]

theorem generateRealisticField_length (n : ℕ) (rng : Rng) (pace : List ℚ) (r' : Rng)
    (h : generateRealisticField n rng = .ok (pace, r')) : pace.length = n := by
  by_cases h6 : n < 6
  · rw [generateRealisticField, if_pos h6] at h
    exact absurd h (by simp)
  · rw [generateRealisticField, if_neg h6] at h
    rcases e1 : rng.uniformList (-(3/10)) (4/10) 6 with ⟨u1, r1⟩
    rcases e2 : r1.uniformList (4/10) (12/10) (min 8 (n - 6)) with ⟨u2, r2⟩
    rcases e4 : (if 0 < n - 6 - min 8 (n - 6) then
        r2.uniformList (12/10) (25/10) (n - 6 - min 8 (n - 6)) else ([], r2)) with ⟨u3, r3⟩
    rcases e5 : r3.nextList n with ⟨z, r4⟩
    rw [e1] at h
    dsimp only at h
    rw [e2] at h
    dsimp only at h
    rw [e4] at h
    dsimp only at h
    rw [e5] at h
    dsimp only at h
    simp only [Except.ok.injEq, Prod.mk.injEq] at h
    obtain ⟨hpace, -⟩ := h
    have l1 : u1.length = 6 := by
      have := Rng.uniformList_length rng (-(3/10)) (4/10) 6
      rw [e1] at this
      exact this
    have l2 : u2.length = min 8 (n - 6) := by
      have := Rng.uniformList_length r1 (4/10) (12/10) (min 8 (n - 6))
      rw [e2] at this
      exact this
    have l3 : u3.length = n - 6 - min 8 (n - 6) := by
      by_cases hb : 0 < n - 6 - min 8 (n - 6)
      · rw [if_pos hb] at e4
        have := Rng.uniformList_length r2 (12/10) (25/10) (n - 6 - min 8 (n - 6))
        rw [e4] at this
        exact this
      · rw [if_neg hb] at e4
        have hu3 : u3 = [] := by
          have := congrArg Prod.fst e4.symm
          simpa using this
        subst hu3
        simp
        omega
    have l5 : z.length = n := by
      have := Rng.nextList_length r3 n
      rw [e5] at this
      exact this
    subst hpace
    rw [List.length_zipWith, List.length_append, List.length_append, l1, l2, l3, l5]
    omega

theorem assignCompetitorStrategies_length (rc : RaceConditions) :
    ∀ (count i : ℕ) (r : Rng) (l : List Strategy) (r' : Rng),
      assignCompetitorStrategies rc count i r = .ok (l, r') → l.length = count := by
  intro count
  induction count with
  | zero =>
    intro i r l r' h
    simp only [assignCompetitorStrategies, Except.ok.injEq, Prod.mk.injEq] at h
    rw [← h.1]
    rfl
  | succ count ih =>
    intro i r l r' h
    simp only [assignCompetitorStrategies, Rng.uniform, Rng.next, Rng.randint, mkStrategy,
      Bind.bind, Except.bind, apply_ite List.length, List.length_cons, List.length_nil,
      List.length_singleton, ite_self] at h
    norm_num at h
    split at h
    · -- one-stop family: pit-window randint, strategy validation, recursion
      split at h
      · simp at h
      · split at h
        · simp at h
        · split at h
          · simp at h
          · rename_i v heq
            rcases v with ⟨rest, rr⟩
            simp only [Except.ok.injEq, Prod.mk.injEq] at h
            rw [← h.1]
            simp [ih _ _ _ _ heq]
    · -- two-stop family: two randint windows, strategy validation, recursion
      split at h
      · simp at h
      · split at h
        · simp at h
        · split at h
          · simp at h
          · split at h
            · simp at h
            · rename_i v heq
              rcases v with ⟨rest, rr⟩
              simp only [Except.ok.injEq, Prod.mk.injEq] at h
              rw [← h.1]
              simp [ih _ _ _ _ heq]

/-- C9 (amended): `CompetitorField` generation has no re-draw and no fallback
— a degenerate pit window aborts construction (see the 20-lap
counterexample) — but whenever construction does succeed it assigns exactly
one strategy and one pace offset to each of the `num_competitors`
opponents. -/
theorem competitor_field_sizes (rc : RaceConditions) (cfg : SimulationConfig) (rng : Rng)
    (f : CompetitorField) (r' : Rng)
    (h : mkCompetitorField rc cfg rng = .ok (f, r')) :
    f.strategies.length = rc.num_competitors ∧
      f.basePace.length = rc.num_competitors := by
  simp only [mkCompetitorField, Bind.bind, Except.bind] at h
  split at h
  · simp at h
  · rename_i v1 heq1
    rcases v1 with ⟨pace, r1⟩
    dsimp only at h
    split at h
    · simp at h
    · rename_i v2 heq2
      rcases v2 with ⟨strats, r2⟩
      dsimp only at h
      simp only [Except.ok.injEq, Prod.mk.injEq] at h
      obtain ⟨hf, -⟩ := h
      subst hf
      exact ⟨assignCompetitorStrategies_length rc _ _ _ _ _ heq2,
        generateRealisticField_length _ _ _ _ heq1⟩

/-- Witness for C9: on a 58-lap race with six competitors and the constant-1/2
stream, field generation succeeds and sizes match. -/
theorem competitor_field_sizes_witness :
    ∃ (f : CompetitorField) (r' : Rng),
      mkCompetitorField rc58 cfgW rngHalf = .ok (f, r') ∧
      f.strategies.length = rc58.num_competitors ∧
      f.basePace.length = rc58.num_competitors := by
  have hok : (mkCompetitorField rc58 cfgW rngHalf).isOk = true := by
    norm_num [mkCompetitorField, generateRealisticField, assignCompetitorStrategies,
      Rng.uniformList, Rng.nextList, Rng.uniform, Rng.next, Rng.randint, mkStrategy,
      rngHalf, rc58, trackW, Bind.bind, Except.bind, min_def, max_def, List.zipWith,
      Except.isOk, apply_ite List.length]
    rfl
  rcases hres : mkCompetitorField rc58 cfgW rngHalf with e | p
  · rw [hres] at hok
    simp [Except.isOk, Except.toBool] at hok
  · rcases p with ⟨f, r'⟩
    exact ⟨f, r', rfl, competitor_field_sizes rc58 cfgW rngHalf f r' hres⟩

end F1Sim
